import Mathlib

/-!
# Resource-view construction: RenderCore/DX11/Metal/TextureView.cpp

A shallow embedding of the four view classes of `TextureView.cpp`
(`RenderTargetView`, `DepthStencilView`, `UnorderedAccessView`,
`ShaderResourceView`): the default-window test, the factory-taking
constructors with the descriptor they derive, and the copy and move
operations.

Conventions of the embedding.

* `unsigned` values are natural numbers; conversions to and from `int` are the
  explicit functions `toInt`, `wrapInt` and `toUInt` (two's complement, 32 bit).
* A constructor is a function to a `Run`: the ordered list of calls it made on
  the resource and on object factories, and either the label of the exception
  it threw or the `_underlying` pointer it stored.
* Declarations of headers that are not part of the translated file (window flag
  bits, `AsDXGIFormat`, `BitsPerPixel`, `GetObjectFactory`) are the fields of a
  parameter `Headers`; every theorem holds for all their values.
-/

namespace RenderCore.Metal_DX11

/-! ## Machine integers -/

/-- The value of `(int)x` for an `unsigned` x (two's complement, 32 bit). -/
def toInt (x : Nat) : Int :=
  if x % 4294967296 < 2147483648 then ((x % 4294967296 : Nat) : Int)
  else ((x % 4294967296 : Nat) : Int) - 4294967296

/-- The result of an `int` operation whose exact value is `i`: reduced into the
32-bit signed range (an overflow wraps around, as on the target hardware). -/
def wrapInt (i : Int) : Int :=
  if i % 4294967296 < 2147483648 then i % 4294967296 else i % 4294967296 - 4294967296

/-- The value stored when an `int` is assigned to an `unsigned` (a `UINT` field). -/
def toUInt (i : Int) : Nat := (i % 4294967296).toNat

/-! ## The view window -/

/-- The enumeration `TextureDesc::Dimensionality`. -/
inductive Dimensionality where
  | Undefined | T1D | T2D | T3D | CubeMap
  deriving DecidableEq, Repr

/-- The struct `TextureViewWindow::SubResourceRange { unsigned _min; unsigned _count; }`. -/
structure SubResourceRange where
  _min : Nat
  _count : Nat
  deriving DecidableEq, Repr

/-- The class `TextureViewWindow`: format (an enumeration over `unsigned`, `Format(0)`
meaning that the format is inherited), mip range, array-layer range,
dimensionality and flag bit field. -/
structure TextureViewWindow where
  _format : Nat
  _mipRange : SubResourceRange
  _arrayLayerRange : SubResourceRange
  _dimensionality : Dimensionality
  _flags : Nat
  deriving DecidableEq, Repr

/-- Modelled from the spec: the sentinel "unlimited" count of a sub-resource range
(`TextureViewWindow::Unlimited`, declared in TextureView.h), the all-ones
`unsigned` value. -/
def TextureViewWindow.Unlimited : Nat := 4294967295

/-- The constant `TextureViewWindow::All = SubResourceRange{0, Unlimited}`. -/
def TextureViewWindow.All : SubResourceRange := ⟨0, TextureViewWindow.Unlimited⟩

/-- Modelled from the spec: the default-constructed window (the constructor and its
default arguments are declared in TextureView.h): inherited format, the whole
mip range and array-layer range, dimensionality inferred from the resource, no
flag. -/
def TextureViewWindow.defaultWindow : TextureViewWindow :=
  { _format := 0
    _mipRange := TextureViewWindow.All
    _arrayLayerRange := TextureViewWindow.All
    _dimensionality := Dimensionality.Undefined
    _flags := 0 }

/-- The function `IsDefault`. -/
def IsDefault (window : TextureViewWindow) : Bool :=
  window._format == 0
    && window._mipRange._min == TextureViewWindow.All._min
    && window._mipRange._count == TextureViewWindow.All._count
    && window._arrayLayerRange._min == TextureViewWindow.All._min
    && window._arrayLayerRange._count == TextureViewWindow.All._count
    && window._dimensionality == Dimensionality.Undefined
    && window._flags == 0

/-! ## Resources, descriptors, factories -/

/-- The enumeration `D3D11_RESOURCE_DIMENSION`, the result of `GetType`. -/
inductive D3D11_RESOURCE_DIMENSION where
  | UNKNOWN | BUFFER | TEXTURE1D | TEXTURE2D | TEXTURE3D
  deriving DecidableEq, Repr

/-- What the constructors can read from a native resource: its address, the
result of `GetType`, and the fields of its description read through
`TextureDesc1D`, `TextureDesc2D` and `D3DBufferDesc`. -/
structure Resource where
  addr : Nat
  resType : D3D11_RESOURCE_DIMENSION
  ArraySize : Nat
  SampleCount : Nat
  MiscFlags : Nat
  ByteWidth : Nat
  StructureByteStride : Nat
  deriving DecidableEq, Repr

/-- A native view object. -/
abbrev Handle := Nat

/-- Modelled from the spec: a reference-counted pointer to a native object
(`intrusive_ptr`, declared outside the translated file), either null or the
handle it shares. -/
abbrev intrusive_ptr := Option Handle

/-- The enumeration `D3D11_RTV_DIMENSION`. -/
inductive D3D11_RTV_DIMENSION where
  | UNKNOWN | BUFFER | TEXTURE1D | TEXTURE1DARRAY | TEXTURE2D | TEXTURE2DARRAY
  | TEXTURE2DMS | TEXTURE2DMSARRAY | TEXTURE3D
  deriving DecidableEq, Repr

/-- The enumeration `D3D11_DSV_DIMENSION`. -/
inductive D3D11_DSV_DIMENSION where
  | UNKNOWN | TEXTURE1D | TEXTURE1DARRAY | TEXTURE2D | TEXTURE2DARRAY
  | TEXTURE2DMS | TEXTURE2DMSARRAY
  deriving DecidableEq, Repr

/-- The enumeration `D3D11_UAV_DIMENSION`. -/
inductive D3D11_UAV_DIMENSION where
  | UNKNOWN | BUFFER | TEXTURE1D | TEXTURE1DARRAY | TEXTURE2D | TEXTURE2DARRAY | TEXTURE3D
  deriving DecidableEq, Repr

/-- The enumeration `D3D11_SRV_DIMENSION`. -/
inductive D3D11_SRV_DIMENSION where
  | UNKNOWN | BUFFER | TEXTURE1D | TEXTURE1DARRAY | TEXTURE2D | TEXTURE2DARRAY
  | TEXTURE2DMS | TEXTURE2DMSARRAY | TEXTURE3D | TEXTURECUBE | TEXTURECUBEARRAY | BUFFEREX
  deriving DecidableEq, Repr

/-- The member of the union of `D3D11_RENDER_TARGET_VIEW_DESC` that the
constructor wrote, with the fields it assigned. -/
inductive RTVUnion where
  | Texture1DArray (MipSlice FirstArraySlice ArraySize : Nat)
  | Texture2DMSArray (FirstArraySlice ArraySize : Nat)
  | Texture2DArray (MipSlice FirstArraySlice ArraySize : Nat)
  | Texture3D (MipSlice FirstWSlice WSize : Nat)
  | Buffer (ElementOffset ElementWidth : Nat)
  deriving DecidableEq, Repr

/-- The struct `D3D11_RENDER_TARGET_VIEW_DESC`. -/
structure D3D11_RENDER_TARGET_VIEW_DESC where
  Format : Nat
  ViewDimension : D3D11_RTV_DIMENSION
  u : RTVUnion
  deriving DecidableEq, Repr

/-- The member of the union of `D3D11_DEPTH_STENCIL_VIEW_DESC` that the
constructor wrote, with the fields it assigned. -/
inductive DSVUnion where
  | Texture1DArray (MipSlice FirstArraySlice ArraySize : Nat)
  | Texture2DMSArray (FirstArraySlice ArraySize : Nat)
  | Texture2DArray (MipSlice FirstArraySlice ArraySize : Nat)
  deriving DecidableEq, Repr

/-- The struct `D3D11_DEPTH_STENCIL_VIEW_DESC`. -/
structure D3D11_DEPTH_STENCIL_VIEW_DESC where
  Format : Nat
  Flags : Nat
  ViewDimension : D3D11_DSV_DIMENSION
  u : DSVUnion
  deriving DecidableEq, Repr

/-- The member of the union of `D3D11_UNORDERED_ACCESS_VIEW_DESC` that the
constructor wrote, with the fields it assigned. -/
inductive UAVUnion where
  | Texture1DArray (MipSlice FirstArraySlice ArraySize : Nat)
  | Texture2DArray (MipSlice FirstArraySlice ArraySize : Nat)
  | Texture3D (MipSlice FirstWSlice WSize : Nat)
  | Buffer (FirstElement NumElements Flags : Nat)
  deriving DecidableEq, Repr

/-- The struct `D3D11_UNORDERED_ACCESS_VIEW_DESC`. -/
structure D3D11_UNORDERED_ACCESS_VIEW_DESC where
  Format : Nat
  ViewDimension : D3D11_UAV_DIMENSION
  u : UAVUnion
  deriving DecidableEq, Repr

/-- The member of the union of `D3D11_SHADER_RESOURCE_VIEW_DESC` that the
constructor wrote, with the fields it assigned. -/
inductive SRVUnion where
  | Texture1DArray (MostDetailedMip MipLevels FirstArraySlice ArraySize : Nat)
  | TextureCubeArray (MostDetailedMip MipLevels First2DArrayFace NumCubes : Nat)
  | Texture2DMSArray (FirstArraySlice ArraySize : Nat)
  | Texture2DArray (MostDetailedMip MipLevels FirstArraySlice ArraySize : Nat)
  | Texture3D (MostDetailedMip MipLevels : Nat)
  | BufferEx (FirstElement NumElements Flags : Nat)
  deriving DecidableEq, Repr

/-- The struct `D3D11_SHADER_RESOURCE_VIEW_DESC`. -/
structure D3D11_SHADER_RESOURCE_VIEW_DESC where
  Format : Nat
  ViewDimension : D3D11_SRV_DIMENSION
  u : SRVUnion
  deriving DecidableEq, Repr

/-- The class `ObjectFactory` as the constructors use it: an identity and the four
creation methods, each taking the resource and an optional view descriptor
(`none` for the overload without a descriptor) and returning the new pointer, as
their signatures say. The methods are defined in ObjectFactory.cpp; what they do
with the device, a failure inside them included, is not part of this file. -/
structure ObjectFactory where
  tag : Nat
  CreateRenderTargetView : Resource → Option D3D11_RENDER_TARGET_VIEW_DESC → intrusive_ptr
  CreateDepthStencilView : Resource → Option D3D11_DEPTH_STENCIL_VIEW_DESC → intrusive_ptr
  CreateUnorderedAccessView : Resource → Option D3D11_UNORDERED_ACCESS_VIEW_DESC → intrusive_ptr
  CreateShaderResourceView : Resource → Option D3D11_SHADER_RESOURCE_VIEW_DESC → intrusive_ptr

/-- Declarations used by TextureView.cpp whose definitions live in other files:
the bits of `TextureViewWindow::Flags`, the format conversions and the lookup of
the factory that owns a resource. -/
structure Headers where
  ForceArray : Nat
  ForceSingleSample : Nat
  AppendBuffer : Nat
  AttachedCounter : Nat
  JustDepth : Nat
  JustStencil : Nat
  AsDXGIFormat : Nat → Nat
  BitsPerPixel : Nat → Nat
  GetObjectFactory : Resource → ObjectFactory

/-- A call made by a constructor on the resource or on an object factory. The
resource is named by its address and the factory by its tag. -/
inductive Event where
  | GetType (res : Nat)
  | TextureDesc1D (res : Nat)
  | TextureDesc2D (res : Nat)
  | TextureDesc3D (res : Nat)
  | D3DBufferDesc (res : Nat)
  | GetObjectFactory (res : Nat)
  | CreateRenderTargetView (factory res : Nat) (desc : Option D3D11_RENDER_TARGET_VIEW_DESC)
  | CreateDepthStencilView (factory res : Nat) (desc : Option D3D11_DEPTH_STENCIL_VIEW_DESC)
  | CreateUnorderedAccessView (factory res : Nat)
      (desc : Option D3D11_UNORDERED_ACCESS_VIEW_DESC)
  | CreateShaderResourceView (factory res : Nat)
      (desc : Option D3D11_SHADER_RESOURCE_VIEW_DESC)
  deriving DecidableEq, Repr

/-- How a constructor ended: by throwing `Exceptions::BasicLabel` with a label, or
with `_underlying` assigned. -/
inductive Outcome where
  | threw (label : String)
  | constructed (_underlying : intrusive_ptr)
  deriving DecidableEq, Repr

/-- A complete execution of a constructor. -/
structure Run where
  trace : List Event
  outcome : Outcome
  deriving DecidableEq, Repr

/-! ## Constants of the graphics API -/

/-- The flag `D3D11_DSV_READ_ONLY_DEPTH`. -/
def D3D11_DSV_READ_ONLY_DEPTH : Nat := 1

/-- The flag `D3D11_DSV_READ_ONLY_STENCIL`. -/
def D3D11_DSV_READ_ONLY_STENCIL : Nat := 2

/-- The flag `D3D11_BUFFER_UAV_FLAG_APPEND`. -/
def D3D11_BUFFER_UAV_FLAG_APPEND : Nat := 2

/-- The flag `D3D11_BUFFER_UAV_FLAG_COUNTER`. -/
def D3D11_BUFFER_UAV_FLAG_COUNTER : Nat := 4

/-- The flag `D3D11_BUFFEREX_SRV_FLAG_RAW`. -/
def D3D11_BUFFEREX_SRV_FLAG_RAW : Nat := 1

/-- The flag `D3D11_RESOURCE_MISC_TEXTURECUBE`. -/
def D3D11_RESOURCE_MISC_TEXTURECUBE : Nat := 4

/-! ## The constructors -/

/-- The test `flags & bit` used as a condition. -/
def hasFlag (flags bit : Nat) : Bool := (flags &&& bit) != 0

/-- The local `arraySize` of every 1D and 2D texture case:
`std::min((int)textureDesc.ArraySize - (int)window._arrayLayerRange._min,
(int)window._arrayLayerRange._count)`. -/
def arraySize (textureArraySize : Nat) (window : TextureViewWindow) : Int :=
  min (wrapInt (toInt textureArraySize - toInt window._arrayLayerRange._min))
    (toInt window._arrayLayerRange._count)

/-- The local `selectArrayForm` of every 1D and 2D texture case:
`((arraySize>0) && window._arrayLayerRange._min == 0) || (window._flags & ForceArray)`. -/
def selectArrayForm (H : Headers) (a : Int) (window : TextureViewWindow) : Bool :=
  (decide (a > 0) && window._arrayLayerRange._min == 0) || hasFlag window._flags H.ForceArray

/-- The condition `textureDesc.SampleDesc.Count > 1 && !(window._flags & ForceSingleSample)`. -/
def selectMultisample (H : Headers) (r : Resource) (window : TextureViewWindow) : Bool :=
  decide (r.SampleCount > 1) && !hasFlag window._flags H.ForceSingleSample

/-- The else branch of `RenderTargetView::RenderTargetView` up to the end of the
switch: the calls made on the resource and the descriptor built, `none` when the
default case throws. -/
def RenderTargetView.viewDesc (H : Headers) (r : Resource) (window : TextureViewWindow) :
    List Event × Option D3D11_RENDER_TARGET_VIEW_DESC :=
  match r.resType with
  | .TEXTURE1D =>
    let a := arraySize r.ArraySize window
    ([.GetType r.addr, .TextureDesc1D r.addr],
      some { Format := H.AsDXGIFormat window._format
             ViewDimension := if selectArrayForm H a window then .TEXTURE1DARRAY else .TEXTURE1D
             u := .Texture1DArray window._mipRange._min window._arrayLayerRange._min (toUInt a) })
  | .TEXTURE2D =>
    let a := arraySize r.ArraySize window
    if selectMultisample H r window then
      ([.GetType r.addr, .TextureDesc2D r.addr],
        some { Format := H.AsDXGIFormat window._format
               ViewDimension :=
                 if selectArrayForm H a window then .TEXTURE2DMSARRAY else .TEXTURE2DMS
               u := .Texture2DMSArray window._arrayLayerRange._min (toUInt a) })
    else
      ([.GetType r.addr, .TextureDesc2D r.addr],
        some { Format := H.AsDXGIFormat window._format
               ViewDimension := if selectArrayForm H a window then .TEXTURE2DARRAY else .TEXTURE2D
               u := .Texture2DArray window._mipRange._min window._arrayLayerRange._min
                      (toUInt a) })
  | .TEXTURE3D =>
    ([.GetType r.addr, .TextureDesc3D r.addr],
      some { Format := H.AsDXGIFormat window._format
             ViewDimension := .TEXTURE3D
             u := .Texture3D window._mipRange._min 0 4294967295 })
  | .BUFFER =>
    ([.GetType r.addr],
      some { Format := H.AsDXGIFormat window._format
             ViewDimension := .BUFFER
             u := .Buffer 0 (H.BitsPerPixel window._format / 8) })
  | .UNKNOWN => ([.GetType r.addr], none)

/-- The constructor `RenderTargetView::RenderTargetView(factory, resource, window)`. -/
def RenderTargetView.ctor (H : Headers) (factory : ObjectFactory) (resource : Option Resource)
    (window : TextureViewWindow) : Run :=
  match resource with
  | none => ⟨[], .threw "NULL resource passed to RenderTargetView constructor"⟩
  | some r =>
    if IsDefault window then
      ⟨[.CreateRenderTargetView factory.tag r.addr none],
        .constructed (factory.CreateRenderTargetView r none)⟩
    else
      match RenderTargetView.viewDesc H r window with
      | (t, none) => ⟨t, .threw "Invalid resource type used with RenderTargetView"⟩
      | (t, some viewDesc) =>
        ⟨t ++ [.CreateRenderTargetView factory.tag r.addr (some viewDesc)],
          .constructed (factory.CreateRenderTargetView r (some viewDesc))⟩

/-- The field `viewDesc.Flags` of the depth-stencil descriptor: 0, with
`D3D11_DSV_READ_ONLY_DEPTH` or-ed in under `JustDepth` and
`D3D11_DSV_READ_ONLY_STENCIL` under `JustStencil`. -/
def DepthStencilView.viewDescFlags (H : Headers) (window : TextureViewWindow) : Nat :=
  let f0 : Nat := 0
  let f1 := if hasFlag window._flags H.JustDepth then f0 ||| D3D11_DSV_READ_ONLY_DEPTH else f0
  if hasFlag window._flags H.JustStencil then f1 ||| D3D11_DSV_READ_ONLY_STENCIL else f1

/-- The else branch of `DepthStencilView::DepthStencilView` up to the end of the
switch. -/
def DepthStencilView.viewDesc (H : Headers) (r : Resource) (window : TextureViewWindow) :
    List Event × Option D3D11_DEPTH_STENCIL_VIEW_DESC :=
  match r.resType with
  | .TEXTURE1D =>
    let a := arraySize r.ArraySize window
    ([.GetType r.addr, .TextureDesc1D r.addr],
      some { Format := H.AsDXGIFormat window._format
             Flags := DepthStencilView.viewDescFlags H window
             ViewDimension := if selectArrayForm H a window then .TEXTURE1DARRAY else .TEXTURE1D
             u := .Texture1DArray window._mipRange._min window._arrayLayerRange._min (toUInt a) })
  | .TEXTURE2D =>
    let a := arraySize r.ArraySize window
    if selectMultisample H r window then
      ([.GetType r.addr, .TextureDesc2D r.addr],
        some { Format := H.AsDXGIFormat window._format
               Flags := DepthStencilView.viewDescFlags H window
               ViewDimension :=
                 if selectArrayForm H a window then .TEXTURE2DMSARRAY else .TEXTURE2DMS
               u := .Texture2DMSArray window._arrayLayerRange._min (toUInt a) })
    else
      ([.GetType r.addr, .TextureDesc2D r.addr],
        some { Format := H.AsDXGIFormat window._format
               Flags := DepthStencilView.viewDescFlags H window
               ViewDimension := if selectArrayForm H a window then .TEXTURE2DARRAY else .TEXTURE2D
               u := .Texture2DArray window._mipRange._min window._arrayLayerRange._min
                      (toUInt a) })
  | _ => ([.GetType r.addr], none)

/-- The constructor `DepthStencilView::DepthStencilView(factory, resource, window)`. -/
def DepthStencilView.ctor (H : Headers) (factory : ObjectFactory) (resource : Option Resource)
    (window : TextureViewWindow) : Run :=
  match resource with
  | none => ⟨[], .threw "NULL resource passed to DepthStencilView constructor"⟩
  | some r =>
    if IsDefault window then
      ⟨[.CreateDepthStencilView factory.tag r.addr none],
        .constructed (factory.CreateDepthStencilView r none)⟩
    else
      match DepthStencilView.viewDesc H r window with
      | (t, none) => ⟨t, .threw "Invalid resource type used with DepthStencilView"⟩
      | (t, some viewDesc) =>
        ⟨t ++ [.CreateDepthStencilView factory.tag r.addr (some viewDesc)],
          .constructed (factory.CreateDepthStencilView r (some viewDesc))⟩

/-- The field `viewDesc.Buffer.Flags` of the unordered-access descriptor: 0, with
`D3D11_BUFFER_UAV_FLAG_APPEND` or-ed in under `AppendBuffer` and
`D3D11_BUFFER_UAV_FLAG_COUNTER` under `AttachedCounter`. -/
def UnorderedAccessView.bufferFlags (H : Headers) (window : TextureViewWindow) : Nat :=
  let f0 : Nat := 0
  let f1 := if hasFlag window._flags H.AppendBuffer then f0 ||| D3D11_BUFFER_UAV_FLAG_APPEND else f0
  if hasFlag window._flags H.AttachedCounter then f1 ||| D3D11_BUFFER_UAV_FLAG_COUNTER else f1

/-- The else branch of `UnorderedAccessView::UnorderedAccessView` up to the end of
the switch. -/
def UnorderedAccessView.viewDesc (H : Headers) (r : Resource) (window : TextureViewWindow) :
    List Event × Option D3D11_UNORDERED_ACCESS_VIEW_DESC :=
  match r.resType with
  | .TEXTURE1D =>
    let a := arraySize r.ArraySize window
    ([.GetType r.addr, .TextureDesc1D r.addr],
      some { Format := H.AsDXGIFormat window._format
             ViewDimension := if selectArrayForm H a window then .TEXTURE1DARRAY else .TEXTURE1D
             u := .Texture1DArray window._mipRange._min window._arrayLayerRange._min (toUInt a) })
  | .TEXTURE2D =>
    let a := arraySize r.ArraySize window
    ([.GetType r.addr, .TextureDesc2D r.addr],
      some { Format := H.AsDXGIFormat window._format
             ViewDimension := if selectArrayForm H a window then .TEXTURE2DARRAY else .TEXTURE2D
             u := .Texture2DArray window._mipRange._min window._arrayLayerRange._min (toUInt a) })
  | .TEXTURE3D =>
    ([.GetType r.addr, .TextureDesc3D r.addr],
      some { Format := H.AsDXGIFormat window._format
             ViewDimension := .TEXTURE3D
             u := .Texture3D window._mipRange._min 0 4294967295 })
  | .BUFFER =>
    ([.GetType r.addr, .D3DBufferDesc r.addr],
      some { Format := H.AsDXGIFormat window._format
             ViewDimension := .BUFFER
             u := .Buffer 0
                    (if r.StructureByteStride != 0 then r.ByteWidth / r.StructureByteStride
                     else r.ByteWidth)
                    (UnorderedAccessView.bufferFlags H window) })
  | .UNKNOWN => ([.GetType r.addr], none)

/-- The constructor `UnorderedAccessView::UnorderedAccessView(factory, resource, window)`.
With a descriptor, the creation method is called on `GetObjectFactory(*resource.get())`. -/
def UnorderedAccessView.ctor (H : Headers) (factory : ObjectFactory) (resource : Option Resource)
    (window : TextureViewWindow) : Run :=
  match resource with
  | none => ⟨[], .threw "NULL resource passed to UnorderedAccessView constructor"⟩
  | some r =>
    if IsDefault window then
      ⟨[.CreateUnorderedAccessView factory.tag r.addr none],
        .constructed (factory.CreateUnorderedAccessView r none)⟩
    else
      match UnorderedAccessView.viewDesc H r window with
      | (t, none) => ⟨t, .threw "Invalid resource type used with RenderTargetView"⟩
      | (t, some viewDesc) =>
        ⟨t ++ [.GetObjectFactory r.addr,
            .CreateUnorderedAccessView (H.GetObjectFactory r).tag r.addr (some viewDesc)],
          .constructed ((H.GetObjectFactory r).CreateUnorderedAccessView r (some viewDesc))⟩

/-- The else branch of `ShaderResourceView::ShaderResourceView` up to the end of the
switch. -/
def ShaderResourceView.viewDesc (H : Headers) (r : Resource) (window : TextureViewWindow) :
    List Event × Option D3D11_SHADER_RESOURCE_VIEW_DESC :=
  match r.resType with
  | .TEXTURE1D =>
    let a := arraySize r.ArraySize window
    ([.GetType r.addr, .TextureDesc1D r.addr],
      some { Format := H.AsDXGIFormat window._format
             ViewDimension := if selectArrayForm H a window then .TEXTURE1DARRAY else .TEXTURE1D
             u := .Texture1DArray window._mipRange._min window._mipRange._count
                    window._arrayLayerRange._min (toUInt a) })
  | .TEXTURE2D =>
    let a := arraySize r.ArraySize window
    if hasFlag r.MiscFlags D3D11_RESOURCE_MISC_TEXTURECUBE then
      ([.GetType r.addr, .TextureDesc2D r.addr],
        some { Format := H.AsDXGIFormat window._format
               ViewDimension :=
                 if selectArrayForm H a window then .TEXTURECUBEARRAY else .TEXTURECUBE
               u := .TextureCubeArray window._mipRange._min window._mipRange._count 0
                      (max 1 (toUInt a / 6)) })
    else if selectMultisample H r window then
      ([.GetType r.addr, .TextureDesc2D r.addr],
        some { Format := H.AsDXGIFormat window._format
               ViewDimension :=
                 if selectArrayForm H a window then .TEXTURE2DMSARRAY else .TEXTURE2DMS
               u := .Texture2DMSArray window._arrayLayerRange._min (toUInt a) })
    else
      ([.GetType r.addr, .TextureDesc2D r.addr],
        some { Format := H.AsDXGIFormat window._format
               ViewDimension := if selectArrayForm H a window then .TEXTURE2DARRAY else .TEXTURE2D
               u := .Texture2DArray window._mipRange._min window._mipRange._count
                      window._arrayLayerRange._min (toUInt a) })
  | .TEXTURE3D =>
    ([.GetType r.addr, .TextureDesc3D r.addr],
      some { Format := H.AsDXGIFormat window._format
             ViewDimension := .TEXTURE3D
             u := .Texture3D window._mipRange._min window._mipRange._count })
  | .BUFFER =>
    ([.GetType r.addr, .D3DBufferDesc r.addr],
      some { Format := H.AsDXGIFormat window._format
             ViewDimension := .BUFFEREX
             u := .BufferEx 0
                    (if r.StructureByteStride != 0 then r.ByteWidth / r.StructureByteStride
                     else r.ByteWidth / 4)
                    D3D11_BUFFEREX_SRV_FLAG_RAW })
  | .UNKNOWN => ([.GetType r.addr], none)

/-- The constructor `ShaderResourceView::ShaderResourceView(factory, resource, window)`. -/
def ShaderResourceView.ctor (H : Headers) (factory : ObjectFactory) (resource : Option Resource)
    (window : TextureViewWindow) : Run :=
  match resource with
  | none => ⟨[], .threw "Null resource passed to ShaderResourceView constructor"⟩
  | some r =>
    if IsDefault window then
      ⟨[.CreateShaderResourceView factory.tag r.addr none],
        .constructed (factory.CreateShaderResourceView r none)⟩
    else
      match ShaderResourceView.viewDesc H r window with
      | (t, none) => ⟨t, .threw "Invalid resource type used with RenderTargetView"⟩
      | (t, some viewDesc) =>
        ⟨t ++ [.CreateShaderResourceView factory.tag r.addr (some viewDesc)],
          .constructed (factory.CreateShaderResourceView r (some viewDesc))⟩

/-- The constant `DXGI_FORMAT_R32_TYPELESS`. -/
def DXGI_FORMAT_R32_TYPELESS : Nat := 39

/-- The function `ShaderResourceView::RawBuffer(res, sizeBytes, offsetBytes)` for a
non-null `res` (the pointer is dereferenced without a test): the descriptor is
built, the factory of the resource is looked up and asked for the view, and the
view object wraps the returned pointer. -/
def ShaderResourceView.RawBuffer (H : Headers) (r : Resource) (sizeBytes offsetBytes : Nat) :
    Run :=
  let srvDesc : D3D11_SHADER_RESOURCE_VIEW_DESC :=
    { Format := DXGI_FORMAT_R32_TYPELESS
      ViewDimension := .BUFFEREX
      u := .BufferEx (offsetBytes / 4) (sizeBytes / 4) D3D11_BUFFEREX_SRV_FLAG_RAW }
  ⟨[.GetObjectFactory r.addr,
      .CreateShaderResourceView (H.GetObjectFactory r).tag r.addr (some srvDesc)],
    .constructed ((H.GetObjectFactory r).CreateShaderResourceView r (some srvDesc))⟩

/-! ## Copy and move operations

Each view class has the single data member `_underlying`. An operation on two
distinct objects is a function from the pointers held before to the pair
(destination, source) held after. -/

/-- Modelled from the spec: copying an `intrusive_ptr` shares the handle, the result
is (new pointer, source afterwards). -/
def intrusive_ptr.copy (src : intrusive_ptr) : intrusive_ptr × intrusive_ptr := (src, src)

/-- Modelled from the spec: moving an `intrusive_ptr` transfers the handle and leaves
the source null, the result is (new pointer, source afterwards). -/
def intrusive_ptr.move (src : intrusive_ptr) : intrusive_ptr × intrusive_ptr := (src, none)

/-- The class `RenderTargetView`: its data member. -/
structure RenderTargetView where
  _underlying : intrusive_ptr
  deriving DecidableEq, Repr

/-- The class `DepthStencilView`: its data member. -/
structure DepthStencilView where
  _underlying : intrusive_ptr
  deriving DecidableEq, Repr

/-- The class `UnorderedAccessView`: its data member. -/
structure UnorderedAccessView where
  _underlying : intrusive_ptr
  deriving DecidableEq, Repr

/-- The class `ShaderResourceView`: its data member. -/
structure ShaderResourceView where
  _underlying : intrusive_ptr
  deriving DecidableEq, Repr

/-- The copy constructor `RenderTargetView(const RenderTargetView& cloneFrom)`:
(new object, cloneFrom afterwards, calls made). -/
def RenderTargetView.copyCtor (cloneFrom : RenderTargetView) :
    RenderTargetView × RenderTargetView × List Event :=
  let p := intrusive_ptr.copy cloneFrom._underlying
  (⟨p.1⟩, ⟨p.2⟩, [])

/-- The copy assignment `RenderTargetView::operator=(const RenderTargetView& cloneFrom)`:
(this afterwards, cloneFrom afterwards, calls made). -/
def RenderTargetView.copyAssign (_this cloneFrom : RenderTargetView) :
    RenderTargetView × RenderTargetView × List Event :=
  let p := intrusive_ptr.copy cloneFrom._underlying
  (⟨p.1⟩, ⟨p.2⟩, [])

/-- The move constructor `RenderTargetView(RenderTargetView&& moveFrom)`. -/
def RenderTargetView.moveCtor (moveFrom : RenderTargetView) :
    RenderTargetView × RenderTargetView × List Event :=
  let p := intrusive_ptr.move moveFrom._underlying
  (⟨p.1⟩, ⟨p.2⟩, [])

/-- The move assignment `RenderTargetView::operator=(RenderTargetView&& moveFrom)`. -/
def RenderTargetView.moveAssign (_this moveFrom : RenderTargetView) :
    RenderTargetView × RenderTargetView × List Event :=
  let p := intrusive_ptr.move moveFrom._underlying
  (⟨p.1⟩, ⟨p.2⟩, [])

/-- The copy constructor `DepthStencilView(const DepthStencilView& cloneFrom)`. -/
def DepthStencilView.copyCtor (cloneFrom : DepthStencilView) :
    DepthStencilView × DepthStencilView × List Event :=
  let p := intrusive_ptr.copy cloneFrom._underlying
  (⟨p.1⟩, ⟨p.2⟩, [])

/-- The copy assignment `DepthStencilView::operator=(const DepthStencilView& cloneFrom)`. -/
def DepthStencilView.copyAssign (_this cloneFrom : DepthStencilView) :
    DepthStencilView × DepthStencilView × List Event :=
  let p := intrusive_ptr.copy cloneFrom._underlying
  (⟨p.1⟩, ⟨p.2⟩, [])

/-- The move constructor `DepthStencilView(DepthStencilView&& moveFrom)`. -/
def DepthStencilView.moveCtor (moveFrom : DepthStencilView) :
    DepthStencilView × DepthStencilView × List Event :=
  let p := intrusive_ptr.move moveFrom._underlying
  (⟨p.1⟩, ⟨p.2⟩, [])

/-- The move assignment `DepthStencilView::operator=(DepthStencilView&& moveFrom)`. -/
def DepthStencilView.moveAssign (_this moveFrom : DepthStencilView) :
    DepthStencilView × DepthStencilView × List Event :=
  let p := intrusive_ptr.move moveFrom._underlying
  (⟨p.1⟩, ⟨p.2⟩, [])

/-- The copy constructor `UnorderedAccessView(const UnorderedAccessView& cloneFrom)`. -/
def UnorderedAccessView.copyCtor (cloneFrom : UnorderedAccessView) :
    UnorderedAccessView × UnorderedAccessView × List Event :=
  let p := intrusive_ptr.copy cloneFrom._underlying
  (⟨p.1⟩, ⟨p.2⟩, [])

/-- The copy assignment `UnorderedAccessView::operator=(const UnorderedAccessView& cloneFrom)`. -/
def UnorderedAccessView.copyAssign (_this cloneFrom : UnorderedAccessView) :
    UnorderedAccessView × UnorderedAccessView × List Event :=
  let p := intrusive_ptr.copy cloneFrom._underlying
  (⟨p.1⟩, ⟨p.2⟩, [])

/-- The move constructor `UnorderedAccessView(UnorderedAccessView&& moveFrom)`. -/
def UnorderedAccessView.moveCtor (moveFrom : UnorderedAccessView) :
    UnorderedAccessView × UnorderedAccessView × List Event :=
  let p := intrusive_ptr.move moveFrom._underlying
  (⟨p.1⟩, ⟨p.2⟩, [])

/-- The move assignment `UnorderedAccessView::operator=(UnorderedAccessView&& moveFrom)`. -/
def UnorderedAccessView.moveAssign (_this moveFrom : UnorderedAccessView) :
    UnorderedAccessView × UnorderedAccessView × List Event :=
  let p := intrusive_ptr.move moveFrom._underlying
  (⟨p.1⟩, ⟨p.2⟩, [])

/-- The copy constructor `ShaderResourceView(const ShaderResourceView& cloneFrom)`. -/
def ShaderResourceView.copyCtor (cloneFrom : ShaderResourceView) :
    ShaderResourceView × ShaderResourceView × List Event :=
  let p := intrusive_ptr.copy cloneFrom._underlying
  (⟨p.1⟩, ⟨p.2⟩, [])

/-- The copy assignment `ShaderResourceView::operator=(const ShaderResourceView& cloneFrom)`. -/
def ShaderResourceView.copyAssign (_this cloneFrom : ShaderResourceView) :
    ShaderResourceView × ShaderResourceView × List Event :=
  let p := intrusive_ptr.copy cloneFrom._underlying
  (⟨p.1⟩, ⟨p.2⟩, [])

/-- The move constructor `ShaderResourceView(ShaderResourceView&& moveFrom)`. -/
def ShaderResourceView.moveCtor (moveFrom : ShaderResourceView) :
    ShaderResourceView × ShaderResourceView × List Event :=
  let p := intrusive_ptr.move moveFrom._underlying
  (⟨p.1⟩, ⟨p.2⟩, [])

/-- The move assignment `ShaderResourceView::operator=(ShaderResourceView&& moveFrom)`. -/
def ShaderResourceView.moveAssign (_this moveFrom : ShaderResourceView) :
    ShaderResourceView × ShaderResourceView × List Event :=
  let p := intrusive_ptr.move moveFrom._underlying
  (⟨p.1⟩, ⟨p.2⟩, [])

/-! ## Observations on a run -/

/-- Whether a call is a creation call on an object factory. -/
def Event.isCreate : Event → Bool
  | .CreateRenderTargetView _ _ _ => true
  | .CreateDepthStencilView _ _ _ => true
  | .CreateUnorderedAccessView _ _ _ => true
  | .CreateShaderResourceView _ _ _ => true
  | _ => false

/-- Whether a call is a creation call that passes a view descriptor. -/
def Event.isCreateWithDesc : Event → Bool
  | .CreateRenderTargetView _ _ d => d.isSome
  | .CreateDepthStencilView _ _ d => d.isSome
  | .CreateUnorderedAccessView _ _ d => d.isSome
  | .CreateShaderResourceView _ _ d => d.isSome
  | _ => false

/-- The creation calls of a run, in order. -/
def Run.creations (run : Run) : List Event := run.trace.filter Event.isCreate

/-- Whether the run ended with a thrown labeled exception. -/
def Run.threw (run : Run) : Bool :=
  match run.outcome with
  | .threw _ => true
  | .constructed _ => false

/-- The descriptor passed to `CreateRenderTargetView`, if the call is one with a
descriptor. -/
def Event.rtvDesc : Event → Option D3D11_RENDER_TARGET_VIEW_DESC
  | .CreateRenderTargetView _ _ d => d
  | _ => none

/-- The descriptor passed to `CreateDepthStencilView`, if any. -/
def Event.dsvDesc : Event → Option D3D11_DEPTH_STENCIL_VIEW_DESC
  | .CreateDepthStencilView _ _ d => d
  | _ => none

/-- The descriptor passed to `CreateUnorderedAccessView`, if any. -/
def Event.uavDesc : Event → Option D3D11_UNORDERED_ACCESS_VIEW_DESC
  | .CreateUnorderedAccessView _ _ d => d
  | _ => none

/-- The descriptor passed to `CreateShaderResourceView`, if any. -/
def Event.srvDesc : Event → Option D3D11_SHADER_RESOURCE_VIEW_DESC
  | .CreateShaderResourceView _ _ d => d
  | _ => none

/-- The render-target descriptor that the run handed to a factory. -/
def Run.rtvDesc (run : Run) : Option D3D11_RENDER_TARGET_VIEW_DESC :=
  run.trace.findSome? Event.rtvDesc

/-- The depth-stencil descriptor that the run handed to a factory. -/
def Run.dsvDesc (run : Run) : Option D3D11_DEPTH_STENCIL_VIEW_DESC :=
  run.trace.findSome? Event.dsvDesc

/-- The unordered-access descriptor that the run handed to a factory. -/
def Run.uavDesc (run : Run) : Option D3D11_UNORDERED_ACCESS_VIEW_DESC :=
  run.trace.findSome? Event.uavDesc

/-- The shader-resource descriptor that the run handed to a factory. -/
def Run.srvDesc (run : Run) : Option D3D11_SHADER_RESOURCE_VIEW_DESC :=
  run.trace.findSome? Event.srvDesc

/-- The `FirstArraySlice` written to a render-target descriptor, if one was. -/
def RTVUnion.FirstArraySlice? : RTVUnion → Option Nat
  | .Texture1DArray _ f _ => some f
  | .Texture2DMSArray f _ => some f
  | .Texture2DArray _ f _ => some f
  | _ => none

/-- The `ArraySize` written to a render-target descriptor, if one was. -/
def RTVUnion.ArraySize? : RTVUnion → Option Nat
  | .Texture1DArray _ _ a => some a
  | .Texture2DMSArray _ a => some a
  | .Texture2DArray _ _ a => some a
  | _ => none

/-- The `FirstArraySlice` written to a depth-stencil descriptor. -/
def DSVUnion.FirstArraySlice? : DSVUnion → Option Nat
  | .Texture1DArray _ f _ => some f
  | .Texture2DMSArray f _ => some f
  | .Texture2DArray _ f _ => some f

/-- The `ArraySize` written to a depth-stencil descriptor. -/
def DSVUnion.ArraySize? : DSVUnion → Option Nat
  | .Texture1DArray _ _ a => some a
  | .Texture2DMSArray _ a => some a
  | .Texture2DArray _ _ a => some a

/-- The `FirstArraySlice` written to an unordered-access descriptor, if one was. -/
def UAVUnion.FirstArraySlice? : UAVUnion → Option Nat
  | .Texture1DArray _ f _ => some f
  | .Texture2DArray _ f _ => some f
  | _ => none

/-- The `ArraySize` written to an unordered-access descriptor, if one was. -/
def UAVUnion.ArraySize? : UAVUnion → Option Nat
  | .Texture1DArray _ _ a => some a
  | .Texture2DArray _ _ a => some a
  | _ => none

/-- The `FirstArraySlice` written to a shader-resource descriptor, if one was. -/
def SRVUnion.FirstArraySlice? : SRVUnion → Option Nat
  | .Texture1DArray _ _ f _ => some f
  | .Texture2DMSArray f _ => some f
  | .Texture2DArray _ _ f _ => some f
  | _ => none

/-- The `ArraySize` written to a shader-resource descriptor, if one was. -/
def SRVUnion.ArraySize? : SRVUnion → Option Nat
  | .Texture1DArray _ _ _ a => some a
  | .Texture2DMSArray _ a => some a
  | .Texture2DArray _ _ _ a => some a
  | _ => none

/-- Whether a render-target view dimension is an array form. -/
def D3D11_RTV_DIMENSION.isArray : D3D11_RTV_DIMENSION → Bool
  | .TEXTURE1DARRAY => true
  | .TEXTURE2DARRAY => true
  | .TEXTURE2DMSARRAY => true
  | _ => false

/-- Whether a depth-stencil view dimension is an array form. -/
def D3D11_DSV_DIMENSION.isArray : D3D11_DSV_DIMENSION → Bool
  | .TEXTURE1DARRAY => true
  | .TEXTURE2DARRAY => true
  | .TEXTURE2DMSARRAY => true
  | _ => false

/-- Whether an unordered-access view dimension is an array form. -/
def D3D11_UAV_DIMENSION.isArray : D3D11_UAV_DIMENSION → Bool
  | .TEXTURE1DARRAY => true
  | .TEXTURE2DARRAY => true
  | _ => false

/-- Whether a shader-resource view dimension is an array form. -/
def D3D11_SRV_DIMENSION.isArray : D3D11_SRV_DIMENSION → Bool
  | .TEXTURE1DARRAY => true
  | .TEXTURE2DARRAY => true
  | .TEXTURE2DMSARRAY => true
  | .TEXTURECUBEARRAY => true
  | _ => false

/-- The `MipSlice` written to a render-target descriptor, if one was. -/
def RTVUnion.MipSlice? : RTVUnion → Option Nat
  | .Texture1DArray m _ _ => some m
  | .Texture2DArray m _ _ => some m
  | .Texture3D m _ _ => some m
  | _ => none

/-- The `MipSlice` written to a depth-stencil descriptor, if one was. -/
def DSVUnion.MipSlice? : DSVUnion → Option Nat
  | .Texture1DArray m _ _ => some m
  | .Texture2DArray m _ _ => some m
  | _ => none

/-- The `MipSlice` written to an unordered-access descriptor, if one was. -/
def UAVUnion.MipSlice? : UAVUnion → Option Nat
  | .Texture1DArray m _ _ => some m
  | .Texture2DArray m _ _ => some m
  | .Texture3D m _ _ => some m
  | _ => none

/-- The `MostDetailedMip` written to a shader-resource descriptor, if one was. -/
def SRVUnion.MostDetailedMip? : SRVUnion → Option Nat
  | .Texture1DArray m _ _ _ => some m
  | .TextureCubeArray m _ _ _ => some m
  | .Texture2DArray m _ _ _ => some m
  | .Texture3D m _ => some m
  | _ => none

/-- The `MipLevels` written to a shader-resource descriptor, if one was. -/
def SRVUnion.MipLevels? : SRVUnion → Option Nat
  | .Texture1DArray _ l _ _ => some l
  | .TextureCubeArray _ l _ _ => some l
  | .Texture2DArray _ l _ _ => some l
  | .Texture3D _ l => some l
  | _ => none

/-! ## Sample values -/

/-- A factory with tag 1; its handles tell the resource and whether a descriptor
was passed. -/
def sampleFactory : ObjectFactory :=
  { tag := 1
    CreateRenderTargetView := fun r d => some (if d.isSome then 2000 + r.addr else 1000 + r.addr)
    CreateDepthStencilView := fun r d => some (if d.isSome then 2000 + r.addr else 1000 + r.addr)
    CreateUnorderedAccessView := fun r d =>
      some (if d.isSome then 2000 + r.addr else 1000 + r.addr)
    CreateShaderResourceView := fun r d =>
      some (if d.isSome then 2000 + r.addr else 1000 + r.addr) }

/-- A second factory, with tag 2, the one `GetObjectFactory` finds in `sampleHeaders`. -/
def ownerFactory : ObjectFactory :=
  { tag := 2
    CreateRenderTargetView := fun r _ => some (5000 + r.addr)
    CreateDepthStencilView := fun r _ => some (5000 + r.addr)
    CreateUnorderedAccessView := fun r _ => some (5000 + r.addr)
    CreateShaderResourceView := fun r _ => some (5000 + r.addr) }

/-- One choice of the header declarations: six distinct flag bits, formats converted
by the identity, 32 bits per pixel. -/
def sampleHeaders : Headers :=
  { ForceArray := 4
    ForceSingleSample := 8
    AppendBuffer := 2
    AttachedCounter := 1
    JustDepth := 16
    JustStencil := 32
    AsDXGIFormat := fun f => f
    BitsPerPixel := fun _ => 32
    GetObjectFactory := fun _ => ownerFactory }

/-- A resource at address 7 of the given dimension with the given number of array
layers and samples, no misc flag. -/
def sampleResource (t : D3D11_RESOURCE_DIMENSION) (layers samples : Nat) : Resource :=
  { addr := 7, resType := t, ArraySize := layers, SampleCount := samples, MiscFlags := 0,
    ByteWidth := 64, StructureByteStride := 0 }

/-! ## Properties named by the statements below -/

/-- The resource dimensions for which the render-target, unordered-access and
shader-resource constructors have a case. -/
def textureOrBuffer : List D3D11_RESOURCE_DIMENSION :=
  [.TEXTURE1D, .TEXTURE2D, .TEXTURE3D, .BUFFER]

/-- The resource dimensions for which the depth-stencil constructor has a case. -/
def texture1DOr2D : List D3D11_RESOURCE_DIMENSION := [.TEXTURE1D, .TEXTURE2D]

/-- A run throws exactly when the resource dimension `t` is outside `supported`;
a run that throws made no creation call, and a run that does not throw made exactly
one creation call, which passed a descriptor. -/
def ThrowsExactlyOutside (run : Run) (supported : List D3D11_RESOURCE_DIMENSION)
    (t : D3D11_RESOURCE_DIMENSION) : Prop :=
  (run.threw = true ↔ t ∉ supported)
    ∧ (run.threw = true → run.creations = [])
    ∧ (run.threw = false → ∃ e, run.creations = [e] ∧ e.isCreateWithDesc = true)

/-- The render-target view dimensions laid down for a resource and a window: the 1D
forms for a 1D texture; for a 2D texture the multisample forms when the sample
count exceeds 1 and the window does not carry `ForceSingleSample`, the
single-sample forms otherwise; `TEXTURE3D` for a 3D texture; `BUFFER` for a
buffer. -/
def RTVDimensionRule (H : Headers) (r : Resource) (w : TextureViewWindow)
    (d : D3D11_RTV_DIMENSION) : Prop :=
  match r.resType with
  | .TEXTURE1D => d = .TEXTURE1D ∨ d = .TEXTURE1DARRAY
  | .TEXTURE2D =>
    if 1 < r.SampleCount ∧ w._flags &&& H.ForceSingleSample = 0 then
      d = .TEXTURE2DMS ∨ d = .TEXTURE2DMSARRAY
    else d = .TEXTURE2D ∨ d = .TEXTURE2DARRAY
  | .TEXTURE3D => d = .TEXTURE3D
  | .BUFFER => d = .BUFFER
  | .UNKNOWN => False

/-- The depth-stencil view dimensions laid down for a resource and a window: as for
a render target, for 1D and 2D textures only. -/
def DSVDimensionRule (H : Headers) (r : Resource) (w : TextureViewWindow)
    (d : D3D11_DSV_DIMENSION) : Prop :=
  match r.resType with
  | .TEXTURE1D => d = .TEXTURE1D ∨ d = .TEXTURE1DARRAY
  | .TEXTURE2D =>
    if 1 < r.SampleCount ∧ w._flags &&& H.ForceSingleSample = 0 then
      d = .TEXTURE2DMS ∨ d = .TEXTURE2DMSARRAY
    else d = .TEXTURE2D ∨ d = .TEXTURE2DARRAY
  | _ => False

/-- The unordered-access view dimensions laid down for a resource: the enumeration
has no multisample form, a 2D texture gets a single-sample form whatever its sample
count. -/
def UAVDimensionRule (r : Resource) (d : D3D11_UAV_DIMENSION) : Prop :=
  match r.resType with
  | .TEXTURE1D => d = .TEXTURE1D ∨ d = .TEXTURE1DARRAY
  | .TEXTURE2D => d = .TEXTURE2D ∨ d = .TEXTURE2DARRAY
  | .TEXTURE3D => d = .TEXTURE3D
  | .BUFFER => d = .BUFFER
  | .UNKNOWN => False

/-- The shader-resource view dimensions laid down for a resource and a window: the
cube forms for a cube-flagged 2D texture whatever its sample count, otherwise as for
a render target, with `BUFFEREX` for a buffer. -/
def SRVDimensionRule (H : Headers) (r : Resource) (w : TextureViewWindow)
    (d : D3D11_SRV_DIMENSION) : Prop :=
  match r.resType with
  | .TEXTURE1D => d = .TEXTURE1D ∨ d = .TEXTURE1DARRAY
  | .TEXTURE2D =>
    if r.MiscFlags &&& D3D11_RESOURCE_MISC_TEXTURECUBE ≠ 0 then
      d = .TEXTURECUBE ∨ d = .TEXTURECUBEARRAY
    else if 1 < r.SampleCount ∧ w._flags &&& H.ForceSingleSample = 0 then
      d = .TEXTURE2DMS ∨ d = .TEXTURE2DMSARRAY
    else d = .TEXTURE2D ∨ d = .TEXTURE2DARRAY
  | .TEXTURE3D => d = .TEXTURE3D
  | .BUFFER => d = .BUFFEREX
  | .UNKNOWN => False

/-- A copy shares the handle: the destination ends with the pointer the source held,
the source still holds it, and no call was made. -/
def CopyShares (srcBefore dstAfter srcAfter : intrusive_ptr) (calls : List Event) : Prop :=
  dstAfter = srcBefore ∧ srcAfter = srcBefore ∧ calls = []

/-- A move transfers the handle: the destination ends with the pointer the source
held before, and no call was made. -/
def MoveTransfers (srcBefore dstAfter : intrusive_ptr) (calls : List Event) : Prop :=
  dstAfter = srcBefore ∧ calls = []

end RenderCore.Metal_DX11

/-! # Reference image-based lighting: Working/Game/xleres/Lighting/IBL/IBLRef.h

The two reference functions of the shader header. A `float` is a rational number
(arithmetic is exact), a `float3` a triple of them. The functions of the shader
library that the header calls but does not define are the fields of a parameter
`ShaderLib`. A function returns its value together with the ordered list of the
library calls and divisions it performed. -/

namespace IBLRef

/-- The HLSL type `float3`. -/
@[ext]
structure float3 where
  x : ℚ
  y : ℚ
  z : ℚ
  deriving DecidableEq

/-- The swizzle `a.xxx` of a scalar. -/
def float3.splat (a : ℚ) : float3 := ⟨a, a, a⟩

/-- The sum of two `float3`. -/
def float3.add (a b : float3) : float3 := ⟨a.x + b.x, a.y + b.y, a.z + b.z⟩

/-- The difference of two `float3`. -/
def float3.sub (a b : float3) : float3 := ⟨a.x - b.x, a.y - b.y, a.z - b.z⟩

/-- The negation of a `float3`. -/
def float3.neg (a : float3) : float3 := ⟨-a.x, -a.y, -a.z⟩

/-- The component-wise product of two `float3`. -/
def float3.mul (a b : float3) : float3 := ⟨a.x * b.x, a.y * b.y, a.z * b.z⟩

/-- The product of a `float3` and a scalar. -/
def float3.scale (a : float3) (k : ℚ) : float3 := ⟨a.x * k, a.y * k, a.z * k⟩

/-- The quotient of a `float3` by a scalar. -/
def float3.divScalar (a : float3) (k : ℚ) : float3 := ⟨a.x / k, a.y / k, a.z / k⟩

/-- The intrinsic `dot`. -/
def dot (a b : float3) : ℚ := a.x * b.x + a.y * b.y + a.z * b.z

/-- The intrinsic `saturate`: the clamp to [0, 1]. -/
def saturate (a : ℚ) : ℚ := max 0 (min a 1)

/-- The struct `SpecularParameters`, declared in another header: the field
`roughness` read here, and the remaining fields, which only the library reads. -/
structure SpecularParameters (Rest : Type) where
  roughness : ℚ
  rest : Rest

/-- The functions and the constant of the shader library used by IBLRef.h.
`SampleLevel tex coords` is `tex.SampleLevel(DefaultSampler, coords, 0).rgb`;
`CalculateTransmissionIncident ot H iorIncident iorOutgoing` is `some i` when the
function returns true with the output `i`, and `none` when it returns false. -/
structure ShaderLib (Rest TextureCube : Type) where
  RoughnessToDAlpha : ℚ → ℚ
  BuildSampleHalfVectorGGX : Nat → Nat → float3 → ℚ → float3
  AdjSkyCubeMapCoords : float3 → float3
  SampleLevel : TextureCube → float3 → float3
  CalculateSpecular : float3 → float3 → float3 → float3 → SpecularParameters Rest → float3
  TrowReitzD : ℚ → ℚ → ℚ
  SamplingPDFWeight : float3 → float3 → float3 → ℚ → ℚ
  CalculateTransmissionIncident : float3 → float3 → ℚ → ℚ → Option float3
  SpecularTransmissionIndexOfRefraction : ℚ

/-- A library call or a division performed by a reference function; `s` is the
sample index of the loop pass. -/
inductive ShaderEvent where
  | RoughnessToDAlpha
  | BuildSampleHalfVectorGGX (s : Nat)
  | CalculateTransmissionIncident (s : Nat)
  | SampleLevel (s : Nat)
  | CalculateSpecular (s : Nat)
  | TrowReitzD (s : Nat)
  | SamplingPDFWeight (s : Nat)
  | Divide
  deriving DecidableEq

/-- One pass of the loop of `SampleSpecularIBL_Ref`: the value
`lightColor * brdf * pdfWeight` added to `result`, and the calls made. The division
in `pdfWeight` is the exact quotient; it stands for the float division only where
the denominator `D * NdotH` is not 0 (a float division by zero gives inf or NaN). -/
def specularSample {Rest TextureCube : Type} (lib : ShaderLib Rest TextureCube)
    (normal viewDirection : float3) (specParam : SpecularParameters Rest) (tex : TextureCube)
    (alphad : ℚ) (sampleCount s : Nat) : float3 × List ShaderEvent :=
  let H := lib.BuildSampleHalfVectorGGX s sampleCount normal alphad
  let L := (H.scale (2 * dot viewDirection H)).sub viewDirection
  let lightColor := lib.SampleLevel tex (lib.AdjSkyCubeMapCoords L)
  let brdf := lib.CalculateSpecular normal viewDirection L H specParam
  let NdotH := saturate (dot normal H)
  let VdotH := saturate (dot viewDirection H)
  let D := lib.TrowReitzD NdotH alphad
  let pdfWeight := (4 * VdotH) / (D * NdotH)
  ((lightColor.mul brdf).scale pdfWeight,
    [.BuildSampleHalfVectorGGX s, .SampleLevel s, .CalculateSpecular s, .TrowReitzD s, .Divide])

/-- The function `SampleSpecularIBL_Ref`. -/
def SampleSpecularIBL_Ref {Rest TextureCube : Type} (lib : ShaderLib Rest TextureCube)
    (normal viewDirection : float3) (specParam : SpecularParameters Rest) (tex : TextureCube) :
    float3 × List ShaderEvent :=
  if specParam.roughness = 0 then (float3.splat 0, [])
  else
    let alphad := lib.RoughnessToDAlpha specParam.roughness
    let sampleCount : Nat := 512
    let loop := (List.range sampleCount).foldl
      (fun (acc : float3 × List ShaderEvent) (s : Nat) =>
        let t := specularSample lib normal viewDirection specParam tex alphad sampleCount s
        (acc.1.add t.1, acc.2 ++ t.2))
      (float3.splat 0, [.RoughnessToDAlpha])
    (loop.1.divScalar (sampleCount : ℚ), loop.2 ++ [.Divide])

/-- One pass of the loop of `SampleTransmittedSpecularIBL_Ref`: `none` when
`CalculateTransmissionIncident` returns false and the pass ends with `continue`,
otherwise the value `lightColor * brdf * pdfWeight` added to `result`; and the
calls made. -/
def transmittedSample {Rest TextureCube : Type} (lib : ShaderLib Rest TextureCube)
    (normal viewDirection : float3) (specParam : SpecularParameters Rest) (tex : TextureCube)
    (alphad : ℚ) (sampleCount s : Nat) : Option float3 × List ShaderEvent :=
  let iorIncident : ℚ := 1
  let iorOutgoing := lib.SpecularTransmissionIndexOfRefraction
  let ot := viewDirection
  let H := lib.BuildSampleHalfVectorGGX s sampleCount normal.neg alphad
  match lib.CalculateTransmissionIncident ot H iorIncident iorOutgoing with
  | none => (none, [.BuildSampleHalfVectorGGX s, .CalculateTransmissionIncident s])
  | some i =>
    let lightColor := lib.SampleLevel tex (lib.AdjSkyCubeMapCoords i)
    let brdf := lib.CalculateSpecular normal viewDirection i H specParam
    let pdfWeight := lib.SamplingPDFWeight H normal.neg viewDirection alphad
    (some ((lightColor.mul brdf).scale pdfWeight),
      [.BuildSampleHalfVectorGGX s, .CalculateTransmissionIncident s, .SampleLevel s,
        .CalculateSpecular s, .SamplingPDFWeight s])

/-- The end of a pass of the transmitted loop: after `continue` the result is
unchanged, otherwise `result += lightColor * brdf * pdfWeight`; the calls of the
pass are recorded in both cases. -/
def accumulate (acc : float3 × List ShaderEvent) (t : Option float3 × List ShaderEvent) :
    float3 × List ShaderEvent :=
  match t.1 with
  | none => (acc.1, acc.2 ++ t.2)
  | some v => (acc.1.add v, acc.2 ++ t.2)

/-- The function `SampleTransmittedSpecularIBL_Ref`. -/
def SampleTransmittedSpecularIBL_Ref {Rest TextureCube : Type}
    (lib : ShaderLib Rest TextureCube) (normal viewDirection : float3)
    (specParam : SpecularParameters Rest) (tex : TextureCube) : float3 × List ShaderEvent :=
  if specParam.roughness = 0 then (float3.splat 0, [])
  else
    let alphad := lib.RoughnessToDAlpha specParam.roughness
    let sampleCount : Nat := 128
    let loop := (List.range sampleCount).foldl
      (fun (acc : float3 × List ShaderEvent) (s : Nat) =>
        accumulate acc
          (transmittedSample lib normal viewDirection specParam tex alphad sampleCount s))
      (float3.splat 0, [.RoughnessToDAlpha])
    (loop.1.divScalar (sampleCount : ℚ), loop.2 ++ [.Divide])

/-- The sum of `f s` over the samples s = 0 .. n - 1, component by component. -/
def float3.sumRange (n : Nat) (f : Nat → float3) : float3 :=
  ⟨∑ s in Finset.range n, (f s).x, ∑ s in Finset.range n, (f s).y,
    ∑ s in Finset.range n, (f s).z⟩

/-- What a pass of the transmitted loop adds to `result`: the sample value, or zero
for a rejected sample. -/
def transmittedTerm {Rest TextureCube : Type} (lib : ShaderLib Rest TextureCube)
    (normal viewDirection : float3) (specParam : SpecularParameters Rest) (tex : TextureCube)
    (alphad : ℚ) (sampleCount s : Nat) : float3 :=
  match (transmittedSample lib normal viewDirection specParam tex alphad sampleCount s).1 with
  | none => float3.splat 0
  | some v => v

/-- A shader library for examples: every half vector is (0, 0, 1), the texture is
white, the BRDF is (1/2, 1/2, 1/2), the weights are 1, and the incident direction of
a transmitted sample is the view direction. -/
def sampleLib : ShaderLib Unit Unit :=
  { RoughnessToDAlpha := fun r => r * r
    BuildSampleHalfVectorGGX := fun _ _ _ _ => ⟨0, 0, 1⟩
    AdjSkyCubeMapCoords := fun v => v
    SampleLevel := fun _ _ => ⟨1, 1, 1⟩
    CalculateSpecular := fun _ _ _ _ _ => ⟨1 / 2, 1 / 2, 1 / 2⟩
    TrowReitzD := fun _ _ => 1
    SamplingPDFWeight := fun _ _ _ _ => 1
    CalculateTransmissionIncident := fun ot _ _ _ => some ot
    SpecularTransmissionIndexOfRefraction := 3 / 2 }

end IBLRef

namespace RenderCore.Metal_DX11

/-! ## Theorems -/

/-- C1: each of the four factory-taking constructors, given a null resource and any
window, throws its labeled exception with an empty list of calls: nothing was asked
of the factory and no native view exists. -/
theorem null_resource_throws_before_any_call (H : Headers) (factory : ObjectFactory)
    (window : TextureViewWindow) :
    RenderTargetView.ctor H factory none window
        = ⟨[], .threw "NULL resource passed to RenderTargetView constructor"⟩
      ∧ DepthStencilView.ctor H factory none window
        = ⟨[], .threw "NULL resource passed to DepthStencilView constructor"⟩
      ∧ UnorderedAccessView.ctor H factory none window
        = ⟨[], .threw "NULL resource passed to UnorderedAccessView constructor"⟩
      ∧ ShaderResourceView.ctor H factory none window
        = ⟨[], .threw "Null resource passed to ShaderResourceView constructor"⟩ :=
  ⟨rfl, rfl, rfl, rfl⟩

/-- C2 as stated fails: a depth-stencil view of a non-null 3D texture with the
default-constructed window does not throw; the factory is asked for a view without
a descriptor and the view is created. -/
theorem unsupported_dimension_default_window_creates :
    DepthStencilView.ctor sampleHeaders sampleFactory
        (some (sampleResource .TEXTURE3D 1 1)) TextureViewWindow.defaultWindow
      = ⟨[.CreateDepthStencilView 1 7 none], .constructed (some 1007)⟩ := by
  decide

/-- C2 amended: for every non-null resource of an unsupported dimension and every
window that is not default, construction reads the resource type, throws the
labeled exception and makes no creation call. Unsupported means unknown for the
render-target, unordered-access and shader-resource views, and a 3D texture, a
buffer or unknown for the depth-stencil view. -/
theorem unsupported_dimension_throws (H : Headers) (factory : ObjectFactory) (r : Resource)
    (window : TextureViewWindow) (hw : IsDefault window = false) :
    (r.resType = .UNKNOWN →
        RenderTargetView.ctor H factory (some r) window
            = ⟨[.GetType r.addr], .threw "Invalid resource type used with RenderTargetView"⟩
          ∧ UnorderedAccessView.ctor H factory (some r) window
            = ⟨[.GetType r.addr], .threw "Invalid resource type used with RenderTargetView"⟩
          ∧ ShaderResourceView.ctor H factory (some r) window
            = ⟨[.GetType r.addr], .threw "Invalid resource type used with RenderTargetView"⟩)
      ∧ (r.resType = .TEXTURE3D ∨ r.resType = .BUFFER ∨ r.resType = .UNKNOWN →
        DepthStencilView.ctor H factory (some r) window
          = ⟨[.GetType r.addr], .threw "Invalid resource type used with DepthStencilView"⟩) := by
  refine ⟨fun h => ?_, fun h => ?_⟩
  · simp [RenderTargetView.ctor, UnorderedAccessView.ctor, ShaderResourceView.ctor,
      RenderTargetView.viewDesc, UnorderedAccessView.viewDesc, ShaderResourceView.viewDesc, hw, h]
  · rcases h with h | h | h <;> simp [DepthStencilView.ctor, DepthStencilView.viewDesc, hw, h]

/-- Witness of C2 amended: an unknown-dimension resource and a window that differs
from the default one in its format. -/
theorem unsupported_dimension_throws_witness :
    IsDefault ⟨1, TextureViewWindow.All, TextureViewWindow.All, .Undefined, 0⟩ = false
      ∧ DepthStencilView.ctor sampleHeaders sampleFactory (some (sampleResource .UNKNOWN 1 1))
          ⟨1, TextureViewWindow.All, TextureViewWindow.All, .Undefined, 0⟩
        = ⟨[.GetType 7], .threw "Invalid resource type used with DepthStencilView"⟩ :=
  ⟨by decide,
    (unsupported_dimension_throws sampleHeaders sampleFactory (sampleResource .UNKNOWN 1 1)
      ⟨1, TextureViewWindow.All, TextureViewWindow.All, .Undefined, 0⟩ (by decide)).2
      (Or.inr (Or.inr rfl))⟩

/-- C3: `IsDefault` holds exactly for the default-constructed window; it holds for
that window, and it fails as soon as one of the five fields of the default window is
replaced by another value: a format other than `Format(0)`, a mip range or an
array-layer range other than `All` (another minimum or another count), a
dimensionality other than `Undefined`, a non-zero flag field, in particular a single
flag bit. -/
theorem IsDefault_iff_defaultWindow :
    (∀ w : TextureViewWindow, IsDefault w = true ↔ w = TextureViewWindow.defaultWindow)
      ∧ IsDefault TextureViewWindow.defaultWindow = true
      ∧ (∀ f : Nat, f ≠ 0 →
          IsDefault { TextureViewWindow.defaultWindow with _format := f } = false)
      ∧ (∀ m c : Nat, m ≠ 0 ∨ c ≠ TextureViewWindow.Unlimited →
          IsDefault { TextureViewWindow.defaultWindow with _mipRange := ⟨m, c⟩ } = false)
      ∧ (∀ m c : Nat, m ≠ 0 ∨ c ≠ TextureViewWindow.Unlimited →
          IsDefault { TextureViewWindow.defaultWindow with _arrayLayerRange := ⟨m, c⟩ } = false)
      ∧ (∀ d : Dimensionality, d ≠ .Undefined →
          IsDefault { TextureViewWindow.defaultWindow with _dimensionality := d } = false)
      ∧ (∀ fl : Nat, fl ≠ 0 →
          IsDefault { TextureViewWindow.defaultWindow with _flags := fl } = false)
      ∧ (∀ k : Nat, IsDefault { TextureViewWindow.defaultWindow with _flags := 2 ^ k } = false) := by
  have key : ∀ w : TextureViewWindow,
      IsDefault w = true ↔ w = TextureViewWindow.defaultWindow := by
    intro w
    rcases w with ⟨f, ⟨m1, c1⟩, ⟨m2, c2⟩, d, fl⟩
    simp [IsDefault, TextureViewWindow.defaultWindow, TextureViewWindow.All, and_assoc]
  have neg : ∀ w : TextureViewWindow,
      w ≠ TextureViewWindow.defaultWindow → IsDefault w = false := by
    intro w hne
    cases hd : IsDefault w
    · rfl
    · exact absurd ((key w).1 hd) hne
  refine ⟨key, (key _).2 rfl, ?_, ?_, ?_, ?_, ?_, ?_⟩
  · intro f hf
    apply neg
    simp [TextureViewWindow.defaultWindow, hf]
  · intro m c h
    apply neg
    simp only [TextureViewWindow.defaultWindow, TextureViewWindow.All, ne_eq,
      TextureViewWindow.mk.injEq, SubResourceRange.mk.injEq]
    tauto
  · intro m c h
    apply neg
    simp only [TextureViewWindow.defaultWindow, TextureViewWindow.All, ne_eq,
      TextureViewWindow.mk.injEq, SubResourceRange.mk.injEq]
    tauto
  · intro d hd
    apply neg
    simp [TextureViewWindow.defaultWindow, hd]
  · intro fl hfl
    apply neg
    simp [TextureViewWindow.defaultWindow, hfl]
  · intro k
    apply neg
    simp [TextureViewWindow.defaultWindow]

/-- Witness of C3: the default window with the flag field 4 is not default. -/
theorem IsDefault_iff_defaultWindow_witness :
    (4 : Nat) ≠ 0
      ∧ IsDefault { TextureViewWindow.defaultWindow with _flags := 4 } = false :=
  ⟨by decide, IsDefault_iff_defaultWindow.2.2.2.2.2.2.1 4 (by decide)⟩

/-- C4: for every non-null resource and the default window, each of the four
factory-taking constructors makes exactly one call, the creation call without a
descriptor on the factory passed in (no `GetType`, no read of the resource
description), and stores the pointer that call returned. -/
theorem default_window_fast_path (H : Headers) (factory : ObjectFactory) (r : Resource) :
    RenderTargetView.ctor H factory (some r) TextureViewWindow.defaultWindow
        = ⟨[.CreateRenderTargetView factory.tag r.addr none],
            .constructed (factory.CreateRenderTargetView r none)⟩
      ∧ DepthStencilView.ctor H factory (some r) TextureViewWindow.defaultWindow
        = ⟨[.CreateDepthStencilView factory.tag r.addr none],
            .constructed (factory.CreateDepthStencilView r none)⟩
      ∧ UnorderedAccessView.ctor H factory (some r) TextureViewWindow.defaultWindow
        = ⟨[.CreateUnorderedAccessView factory.tag r.addr none],
            .constructed (factory.CreateUnorderedAccessView r none)⟩
      ∧ ShaderResourceView.ctor H factory (some r) TextureViewWindow.defaultWindow
        = ⟨[.CreateShaderResourceView factory.tag r.addr none],
            .constructed (factory.CreateShaderResourceView r none)⟩ := by
  have hd : IsDefault TextureViewWindow.defaultWindow = true := by decide
  simp [RenderTargetView.ctor, DepthStencilView.ctor, UnorderedAccessView.ctor,
    ShaderResourceView.ctor, hd]

/-! ### The descriptor handed to the factory -/

theorem rtvDesc_ctor (H : Headers) (factory : ObjectFactory) (r : Resource)
    (window : TextureViewWindow) (hw : IsDefault window = false) :
    (RenderTargetView.ctor H factory (some r) window).rtvDesc
      = (RenderTargetView.viewDesc H r window).2 := by
  simp only [RenderTargetView.ctor, hw, Bool.false_eq_true, if_false]
  unfold RenderTargetView.viewDesc
  cases r.resType <;> simp only [] <;> (try split_ifs) <;>
    simp [Run.rtvDesc, Event.rtvDesc]

theorem dsvDesc_ctor (H : Headers) (factory : ObjectFactory) (r : Resource)
    (window : TextureViewWindow) (hw : IsDefault window = false) :
    (DepthStencilView.ctor H factory (some r) window).dsvDesc
      = (DepthStencilView.viewDesc H r window).2 := by
  simp only [DepthStencilView.ctor, hw, Bool.false_eq_true, if_false]
  unfold DepthStencilView.viewDesc
  cases r.resType <;> simp only [] <;> (try split_ifs) <;>
    simp [Run.dsvDesc, Event.dsvDesc]

theorem uavDesc_ctor (H : Headers) (factory : ObjectFactory) (r : Resource)
    (window : TextureViewWindow) (hw : IsDefault window = false) :
    (UnorderedAccessView.ctor H factory (some r) window).uavDesc
      = (UnorderedAccessView.viewDesc H r window).2 := by
  simp only [UnorderedAccessView.ctor, hw, Bool.false_eq_true, if_false]
  unfold UnorderedAccessView.viewDesc
  cases r.resType <;> simp only [] <;> (try split_ifs) <;>
    simp [Run.uavDesc, Event.uavDesc]

theorem srvDesc_ctor (H : Headers) (factory : ObjectFactory) (r : Resource)
    (window : TextureViewWindow) (hw : IsDefault window = false) :
    (ShaderResourceView.ctor H factory (some r) window).srvDesc
      = (ShaderResourceView.viewDesc H r window).2 := by
  simp only [ShaderResourceView.ctor, hw, Bool.false_eq_true, if_false]
  unfold ShaderResourceView.viewDesc
  cases r.resType <;> simp only [] <;> (try split_ifs) <;>
    simp [Run.srvDesc, Event.srvDesc]

/-- C5 as stated fails. A render-target view of a 2D texture with 4 samples under a
window carrying `ForceSingleSample` gets the single-sample form `TEXTURE2D`; an
unordered-access view of a 2D texture with 4 samples gets `TEXTURE2D`; a
shader-resource view of a cube-flagged 2D texture with 4 samples gets
`TEXTURECUBE`. None is `TEXTURE2DMS` or `TEXTURE2DMSARRAY`. -/
theorem multisample_texture_single_sample_form :
    (RenderTargetView.ctor sampleHeaders sampleFactory (some (sampleResource .TEXTURE2D 1 4))
          ⟨0, TextureViewWindow.All, TextureViewWindow.All, .Undefined, 8⟩).rtvDesc
        = some ⟨0, .TEXTURE2D, .Texture2DArray 0 0 4294967295⟩
      ∧ (UnorderedAccessView.ctor sampleHeaders sampleFactory
          (some (sampleResource .TEXTURE2D 1 4))
          ⟨1, TextureViewWindow.All, TextureViewWindow.All, .Undefined, 0⟩).uavDesc
        = some ⟨1, .TEXTURE2D, .Texture2DArray 0 0 4294967295⟩
      ∧ (ShaderResourceView.ctor sampleHeaders sampleFactory
          (some { sampleResource .TEXTURE2D 6 4 with MiscFlags := 4 })
          ⟨1, TextureViewWindow.All, TextureViewWindow.All, .Undefined, 0⟩).srvDesc
        = some ⟨1, .TEXTURECUBE, .TextureCubeArray 0 4294967295 0 715827882⟩ := by
  decide

/-- C5 amended: for every resource of a supported dimension and every window that is
not default, each constructor hands the factory a descriptor whose view dimension
obeys the rule of its view type: 1D forms for a 1D texture; for a 2D texture the
cube forms (shader-resource view of a cube-flagged texture), else the multisample
forms when the sample count exceeds 1, the window lacks `ForceSingleSample` and the
view is not an unordered-access view, else the single-sample forms; `TEXTURE3D`
for a 3D texture; `BUFFER` for a buffer (`BUFFEREX` for a shader-resource view). -/
theorem view_dimension_obeys_rule (H : Headers) (factory : ObjectFactory) (r : Resource)
    (window : TextureViewWindow) (hw : IsDefault window = false) :
    (r.resType ∈ textureOrBuffer →
        ∃ d, (RenderTargetView.ctor H factory (some r) window).rtvDesc = some d
          ∧ RTVDimensionRule H r window d.ViewDimension)
      ∧ (r.resType ∈ texture1DOr2D →
        ∃ d, (DepthStencilView.ctor H factory (some r) window).dsvDesc = some d
          ∧ DSVDimensionRule H r window d.ViewDimension)
      ∧ (r.resType ∈ textureOrBuffer →
        ∃ d, (UnorderedAccessView.ctor H factory (some r) window).uavDesc = some d
          ∧ UAVDimensionRule r d.ViewDimension)
      ∧ (r.resType ∈ textureOrBuffer →
        ∃ d, (ShaderResourceView.ctor H factory (some r) window).srvDesc = some d
          ∧ SRVDimensionRule H r window d.ViewDimension) := by
  rw [rtvDesc_ctor H factory r window hw, dsvDesc_ctor H factory r window hw,
    uavDesc_ctor H factory r window hw, srvDesc_ctor H factory r window hw]
  unfold RenderTargetView.viewDesc DepthStencilView.viewDesc UnorderedAccessView.viewDesc
    ShaderResourceView.viewDesc RTVDimensionRule DSVDimensionRule UAVDimensionRule
    SRVDimensionRule
  cases r.resType <;>
    simp only [textureOrBuffer, texture1DOr2D, selectMultisample, hasFlag] <;>
    refine ⟨?_, ?_, ?_, ?_⟩ <;> intro hmem <;> (try split_ifs) <;>
    simp_all

/-- Witness of C5 amended: a 2D texture with 4 samples and a window that differs from
the default one in its format; the render-target descriptor is a multisample form. -/
theorem view_dimension_obeys_rule_witness :
    IsDefault ⟨1, TextureViewWindow.All, TextureViewWindow.All, .Undefined, 0⟩ = false
      ∧ ∃ d, (RenderTargetView.ctor sampleHeaders sampleFactory
            (some (sampleResource .TEXTURE2D 1 4))
            ⟨1, TextureViewWindow.All, TextureViewWindow.All, .Undefined, 0⟩).rtvDesc = some d
          ∧ RTVDimensionRule sampleHeaders (sampleResource .TEXTURE2D 1 4)
              ⟨1, TextureViewWindow.All, TextureViewWindow.All, .Undefined, 0⟩ d.ViewDimension :=
  ⟨by decide,
    (view_dimension_obeys_rule sampleHeaders sampleFactory (sampleResource .TEXTURE2D 1 4)
      ⟨1, TextureViewWindow.All, TextureViewWindow.All, .Undefined, 0⟩ (by decide)).1
      (by decide)⟩

/-! ### The array-layer range -/

theorem arraySize_exact (n : Nat) (w : TextureViewWindow) (hn : n < 2147483648)
    (hm : w._arrayLayerRange._min < n) (hc : w._arrayLayerRange._count < 2147483648) :
    arraySize n w
      = ((min (n - w._arrayLayerRange._min) w._arrayLayerRange._count : Nat) : Int) := by
  unfold arraySize toInt wrapInt
  split_ifs <;> omega

theorem toUInt_natCast (k : Nat) (hk : k < 4294967296) : toUInt (k : Int) = k := by
  unfold toUInt
  omega

theorem selectArrayForm_eq_true (H : Headers) (w : TextureViewWindow) (a : Int) (ha : 0 < a)
    (h : w._arrayLayerRange._min = 0 ∨ w._flags &&& H.ForceArray ≠ 0) :
    selectArrayForm H a w = true := by
  unfold selectArrayForm hasFlag
  rcases h with h | h <;> simp [h, ha]

theorem not_default_of_count_lt (w : TextureViewWindow)
    (hc : w._arrayLayerRange._count < 2147483648) : IsDefault w = false := by
  cases h : IsDefault w
  · rfl
  · simp [IsDefault, TextureViewWindow.All, TextureViewWindow.Unlimited] at h
    omega

/-- C6 as stated fails. A render-target view of a 1D texture with 4 layers under the
window range {min 1, count 2} without `ForceArray` gets the non-array dimension
`TEXTURE1D`; and for a texture whose layer count 2147483648 does not fit a signed
32-bit int, the range {min 0, count 1} with `ForceArray` gets ArraySize 2147483648,
not 1. -/
theorem array_range_not_honoured :
    (RenderTargetView.ctor sampleHeaders sampleFactory (some (sampleResource .TEXTURE1D 4 1))
          ⟨0, TextureViewWindow.All, ⟨1, 2⟩, .Undefined, 0⟩).rtvDesc
        = some ⟨0, .TEXTURE1D, .Texture1DArray 0 1 2⟩
      ∧ (RenderTargetView.ctor sampleHeaders sampleFactory
          (some (sampleResource .TEXTURE1D 2147483648 1))
          ⟨0, TextureViewWindow.All, ⟨0, 1⟩, .Undefined, 4⟩).rtvDesc
        = some ⟨0, .TEXTURE1DARRAY, .Texture1DArray 0 0 2147483648⟩ := by
  decide

/-- C6 amended: for a 1D texture or a 2D texture (not cube-flagged, for the
shader-resource view) with n layers, n below 2^31, and a window whose array-layer
range {min m, count c} has c >= 1 and m + c <= n, and which either has m = 0 or
carries `ForceArray`, each of the four constructors hands the factory a descriptor
with an array view dimension, FirstArraySlice = m and ArraySize = c. -/
theorem array_range_in_descriptor (H : Headers) (factory : ObjectFactory) (r : Resource)
    (window : TextureViewWindow)
    (hc : 1 ≤ window._arrayLayerRange._count)
    (hfit : window._arrayLayerRange._min + window._arrayLayerRange._count ≤ r.ArraySize)
    (hn : r.ArraySize < 2147483648)
    (hsel : window._arrayLayerRange._min = 0 ∨ window._flags &&& H.ForceArray ≠ 0) :
    (r.resType = .TEXTURE1D ∨ r.resType = .TEXTURE2D →
        ∃ d, (RenderTargetView.ctor H factory (some r) window).rtvDesc = some d
          ∧ d.ViewDimension.isArray = true
          ∧ d.u.FirstArraySlice? = some window._arrayLayerRange._min
          ∧ d.u.ArraySize? = some window._arrayLayerRange._count)
      ∧ (r.resType = .TEXTURE1D ∨ r.resType = .TEXTURE2D →
        ∃ d, (DepthStencilView.ctor H factory (some r) window).dsvDesc = some d
          ∧ d.ViewDimension.isArray = true
          ∧ d.u.FirstArraySlice? = some window._arrayLayerRange._min
          ∧ d.u.ArraySize? = some window._arrayLayerRange._count)
      ∧ (r.resType = .TEXTURE1D ∨ r.resType = .TEXTURE2D →
        ∃ d, (UnorderedAccessView.ctor H factory (some r) window).uavDesc = some d
          ∧ d.ViewDimension.isArray = true
          ∧ d.u.FirstArraySlice? = some window._arrayLayerRange._min
          ∧ d.u.ArraySize? = some window._arrayLayerRange._count)
      ∧ (r.resType = .TEXTURE1D
          ∨ (r.resType = .TEXTURE2D ∧ r.MiscFlags &&& D3D11_RESOURCE_MISC_TEXTURECUBE = 0) →
        ∃ d, (ShaderResourceView.ctor H factory (some r) window).srvDesc = some d
          ∧ d.ViewDimension.isArray = true
          ∧ d.u.FirstArraySlice? = some window._arrayLayerRange._min
          ∧ d.u.ArraySize? = some window._arrayLayerRange._count) := by
  have hw : IsDefault window = false := not_default_of_count_lt window (by omega)
  have ha : arraySize r.ArraySize window = (window._arrayLayerRange._count : Int) := by
    rw [arraySize_exact r.ArraySize window hn (by omega) (by omega)]
    congr 1
    omega
  have hs : selectArrayForm H (window._arrayLayerRange._count : Int) window = true :=
    selectArrayForm_eq_true H window _ (by omega) hsel
  have hu : toUInt (window._arrayLayerRange._count : Int) = window._arrayLayerRange._count :=
    toUInt_natCast _ (by omega)
  rw [rtvDesc_ctor H factory r window hw, dsvDesc_ctor H factory r window hw,
    uavDesc_ctor H factory r window hw, srvDesc_ctor H factory r window hw]
  unfold RenderTargetView.viewDesc DepthStencilView.viewDesc UnorderedAccessView.viewDesc
    ShaderResourceView.viewDesc
  refine ⟨?_, ?_, ?_, ?_⟩
  · rintro (h | h) <;> simp only [h, ha, hs, hu] <;> (try split_ifs) <;>
      simp [D3D11_RTV_DIMENSION.isArray, RTVUnion.FirstArraySlice?, RTVUnion.ArraySize?]
  · rintro (h | h) <;> simp only [h, ha, hs, hu] <;> (try split_ifs) <;>
      simp [D3D11_DSV_DIMENSION.isArray, DSVUnion.FirstArraySlice?, DSVUnion.ArraySize?]
  · rintro (h | h) <;> simp only [h, ha, hs, hu] <;> (try split_ifs) <;>
      simp [D3D11_UAV_DIMENSION.isArray, UAVUnion.FirstArraySlice?, UAVUnion.ArraySize?]
  · rintro (h | ⟨h, hcube⟩)
    · simp [h, ha, hs, hu, D3D11_SRV_DIMENSION.isArray, SRVUnion.FirstArraySlice?,
        SRVUnion.ArraySize?]
    · simp only [h, ha, hs, hu, hasFlag, hcube]
      split_ifs <;>
        simp_all [D3D11_SRV_DIMENSION.isArray, SRVUnion.FirstArraySlice?, SRVUnion.ArraySize?]

/-- Witness of C6 amended: a 1D texture with 4 layers, the range {min 1, count 2}
and the `ForceArray` bit of `sampleHeaders`. -/
theorem array_range_in_descriptor_witness :
    ∃ d, (RenderTargetView.ctor sampleHeaders sampleFactory
          (some (sampleResource .TEXTURE1D 4 1))
          ⟨0, TextureViewWindow.All, ⟨1, 2⟩, .Undefined, 4⟩).rtvDesc = some d
      ∧ d.ViewDimension.isArray = true
      ∧ d.u.FirstArraySlice? = some 1
      ∧ d.u.ArraySize? = some 2 :=
  (array_range_in_descriptor sampleHeaders sampleFactory (sampleResource .TEXTURE1D 4 1)
    ⟨0, TextureViewWindow.All, ⟨1, 2⟩, .Undefined, 4⟩ (by decide) (by decide) (by decide)
    (Or.inr (by decide))).1 (Or.inl rfl)

/-! ### The dimensionality field -/

/-- C7 as stated fails. For a 2D texture, the windows requesting dimensionality
`T1D` and `T3D` both get the view dimension `TEXTURE2D`; for a 1D texture, the window
requesting `T3D` gets `TEXTURE1D`: the view dimension follows the resource, not the
request. -/
theorem dimensionality_request_ignored :
    (RenderTargetView.ctor sampleHeaders sampleFactory (some (sampleResource .TEXTURE2D 1 1))
          ⟨0, TextureViewWindow.All, TextureViewWindow.All, .T1D, 0⟩).rtvDesc
        = some ⟨0, .TEXTURE2D, .Texture2DArray 0 0 4294967295⟩
      ∧ (RenderTargetView.ctor sampleHeaders sampleFactory
          (some (sampleResource .TEXTURE2D 1 1))
          ⟨0, TextureViewWindow.All, TextureViewWindow.All, .T3D, 0⟩).rtvDesc
        = some ⟨0, .TEXTURE2D, .Texture2DArray 0 0 4294967295⟩
      ∧ (RenderTargetView.ctor sampleHeaders sampleFactory
          (some (sampleResource .TEXTURE1D 1 1))
          ⟨0, TextureViewWindow.All, TextureViewWindow.All, .T3D, 0⟩).rtvDesc
        = some ⟨0, .TEXTURE1D, .Texture1DArray 0 0 4294967295⟩ := by
  decide

/-- C7 amended: the dimensionality field of the window takes part in the default
test only. For each of the four constructors, every resource handle and any two
windows that are not default and differ only in their dimensionality, the runs are
equal: same calls, same descriptor, same outcome. -/
theorem dimensionality_only_in_default_test (H : Headers) (factory : ObjectFactory)
    (resource : Option Resource) (window : TextureViewWindow) (dim : Dimensionality)
    (hw : IsDefault window = false)
    (hw2 : IsDefault { window with _dimensionality := dim } = false) :
    RenderTargetView.ctor H factory resource { window with _dimensionality := dim }
        = RenderTargetView.ctor H factory resource window
      ∧ DepthStencilView.ctor H factory resource { window with _dimensionality := dim }
        = DepthStencilView.ctor H factory resource window
      ∧ UnorderedAccessView.ctor H factory resource { window with _dimensionality := dim }
        = UnorderedAccessView.ctor H factory resource window
      ∧ ShaderResourceView.ctor H factory resource { window with _dimensionality := dim }
        = ShaderResourceView.ctor H factory resource window := by
  have h1 : ∀ r, RenderTargetView.viewDesc H r { window with _dimensionality := dim }
      = RenderTargetView.viewDesc H r window := fun _ => rfl
  have h2 : ∀ r, DepthStencilView.viewDesc H r { window with _dimensionality := dim }
      = DepthStencilView.viewDesc H r window := fun _ => rfl
  have h3 : ∀ r, UnorderedAccessView.viewDesc H r { window with _dimensionality := dim }
      = UnorderedAccessView.viewDesc H r window := fun _ => rfl
  have h4 : ∀ r, ShaderResourceView.viewDesc H r { window with _dimensionality := dim }
      = ShaderResourceView.viewDesc H r window := fun _ => rfl
  cases resource with
  | none => exact ⟨rfl, rfl, rfl, rfl⟩
  | some r =>
    simp only [RenderTargetView.ctor, DepthStencilView.ctor, UnorderedAccessView.ctor,
      ShaderResourceView.ctor, hw, hw2, h1, h2, h3, h4, and_self]

/-- Witness of C7 amended: a 2D texture, a window requesting `T1D` and the same window
requesting `T3D`. -/
theorem dimensionality_only_in_default_test_witness :
    RenderTargetView.ctor sampleHeaders sampleFactory (some (sampleResource .TEXTURE2D 1 1))
        { ({ _format := 1, _mipRange := TextureViewWindow.All,
             _arrayLayerRange := TextureViewWindow.All, _dimensionality := .T1D,
             _flags := 0 } : TextureViewWindow) with _dimensionality := .T3D }
      = RenderTargetView.ctor sampleHeaders sampleFactory
        (some (sampleResource .TEXTURE2D 1 1))
        ⟨1, TextureViewWindow.All, TextureViewWindow.All, .T1D, 0⟩ :=
  (dimensionality_only_in_default_test sampleHeaders sampleFactory
    (some (sampleResource .TEXTURE2D 1 1))
    ⟨1, TextureViewWindow.All, TextureViewWindow.All, .T1D, 0⟩ .T3D
    (by decide) (by decide)).1

/-! ### Copy and move -/

/-- C8: for each of the four view classes, the copy constructor and the copy
assignment leave the destination with the source's handle and the source unchanged;
the move constructor and the move assignment leave the destination with the handle
the source held before. None of them makes a call: no native view is created and
no factory is consulted. -/
theorem copy_shares_and_move_transfers (h0 h1 : intrusive_ptr) :
    (CopyShares h1 (RenderTargetView.copyCtor ⟨h1⟩).1._underlying
        (RenderTargetView.copyCtor ⟨h1⟩).2.1._underlying (RenderTargetView.copyCtor ⟨h1⟩).2.2
      ∧ CopyShares h1 (RenderTargetView.copyAssign ⟨h0⟩ ⟨h1⟩).1._underlying
        (RenderTargetView.copyAssign ⟨h0⟩ ⟨h1⟩).2.1._underlying
        (RenderTargetView.copyAssign ⟨h0⟩ ⟨h1⟩).2.2
      ∧ MoveTransfers h1 (RenderTargetView.moveCtor ⟨h1⟩).1._underlying
        (RenderTargetView.moveCtor ⟨h1⟩).2.2
      ∧ MoveTransfers h1 (RenderTargetView.moveAssign ⟨h0⟩ ⟨h1⟩).1._underlying
        (RenderTargetView.moveAssign ⟨h0⟩ ⟨h1⟩).2.2)
    ∧ (CopyShares h1 (DepthStencilView.copyCtor ⟨h1⟩).1._underlying
        (DepthStencilView.copyCtor ⟨h1⟩).2.1._underlying (DepthStencilView.copyCtor ⟨h1⟩).2.2
      ∧ CopyShares h1 (DepthStencilView.copyAssign ⟨h0⟩ ⟨h1⟩).1._underlying
        (DepthStencilView.copyAssign ⟨h0⟩ ⟨h1⟩).2.1._underlying
        (DepthStencilView.copyAssign ⟨h0⟩ ⟨h1⟩).2.2
      ∧ MoveTransfers h1 (DepthStencilView.moveCtor ⟨h1⟩).1._underlying
        (DepthStencilView.moveCtor ⟨h1⟩).2.2
      ∧ MoveTransfers h1 (DepthStencilView.moveAssign ⟨h0⟩ ⟨h1⟩).1._underlying
        (DepthStencilView.moveAssign ⟨h0⟩ ⟨h1⟩).2.2)
    ∧ (CopyShares h1 (UnorderedAccessView.copyCtor ⟨h1⟩).1._underlying
        (UnorderedAccessView.copyCtor ⟨h1⟩).2.1._underlying
        (UnorderedAccessView.copyCtor ⟨h1⟩).2.2
      ∧ CopyShares h1 (UnorderedAccessView.copyAssign ⟨h0⟩ ⟨h1⟩).1._underlying
        (UnorderedAccessView.copyAssign ⟨h0⟩ ⟨h1⟩).2.1._underlying
        (UnorderedAccessView.copyAssign ⟨h0⟩ ⟨h1⟩).2.2
      ∧ MoveTransfers h1 (UnorderedAccessView.moveCtor ⟨h1⟩).1._underlying
        (UnorderedAccessView.moveCtor ⟨h1⟩).2.2
      ∧ MoveTransfers h1 (UnorderedAccessView.moveAssign ⟨h0⟩ ⟨h1⟩).1._underlying
        (UnorderedAccessView.moveAssign ⟨h0⟩ ⟨h1⟩).2.2)
    ∧ (CopyShares h1 (ShaderResourceView.copyCtor ⟨h1⟩).1._underlying
        (ShaderResourceView.copyCtor ⟨h1⟩).2.1._underlying
        (ShaderResourceView.copyCtor ⟨h1⟩).2.2
      ∧ CopyShares h1 (ShaderResourceView.copyAssign ⟨h0⟩ ⟨h1⟩).1._underlying
        (ShaderResourceView.copyAssign ⟨h0⟩ ⟨h1⟩).2.1._underlying
        (ShaderResourceView.copyAssign ⟨h0⟩ ⟨h1⟩).2.2
      ∧ MoveTransfers h1 (ShaderResourceView.moveCtor ⟨h1⟩).1._underlying
        (ShaderResourceView.moveCtor ⟨h1⟩).2.2
      ∧ MoveTransfers h1 (ShaderResourceView.moveAssign ⟨h0⟩ ⟨h1⟩).1._underlying
        (ShaderResourceView.moveAssign ⟨h0⟩ ⟨h1⟩).2.2) := by
  simp [CopyShares, MoveTransfers, RenderTargetView.copyCtor, RenderTargetView.copyAssign,
    RenderTargetView.moveCtor, RenderTargetView.moveAssign, DepthStencilView.copyCtor,
    DepthStencilView.copyAssign, DepthStencilView.moveCtor, DepthStencilView.moveAssign,
    UnorderedAccessView.copyCtor, UnorderedAccessView.copyAssign, UnorderedAccessView.moveCtor,
    UnorderedAccessView.moveAssign, ShaderResourceView.copyCtor, ShaderResourceView.copyAssign,
    ShaderResourceView.moveCtor, ShaderResourceView.moveAssign, intrusive_ptr.copy,
    intrusive_ptr.move]

/-! ### When construction throws -/

/-- C9: for every non-null resource and every window that is not default, each
constructor throws its labeled exception exactly when the resource dimension is
outside the supported set of the view type (1D, 2D, 3D texture or buffer for the
render-target, unordered-access and shader-resource views; 1D or 2D texture for the
depth-stencil view); a run that throws made no creation call, and a run that does
not throw made exactly one creation call, with a descriptor. -/
theorem throws_iff_unsupported (H : Headers) (factory : ObjectFactory) (r : Resource)
    (window : TextureViewWindow) (hw : IsDefault window = false) :
    ThrowsExactlyOutside (RenderTargetView.ctor H factory (some r) window)
        textureOrBuffer r.resType
      ∧ ThrowsExactlyOutside (DepthStencilView.ctor H factory (some r) window)
        texture1DOr2D r.resType
      ∧ ThrowsExactlyOutside (UnorderedAccessView.ctor H factory (some r) window)
        textureOrBuffer r.resType
      ∧ ThrowsExactlyOutside (ShaderResourceView.ctor H factory (some r) window)
        textureOrBuffer r.resType := by
  simp only [ThrowsExactlyOutside, RenderTargetView.ctor, DepthStencilView.ctor,
    UnorderedAccessView.ctor, ShaderResourceView.ctor, hw, Bool.false_eq_true, if_false]
  unfold RenderTargetView.viewDesc DepthStencilView.viewDesc UnorderedAccessView.viewDesc
    ShaderResourceView.viewDesc
  cases r.resType <;> simp only [] <;> (try split_ifs) <;>
    simp [Run.threw, Run.creations, Event.isCreate, Event.isCreateWithDesc, textureOrBuffer,
      texture1DOr2D]

/-- Witness of C9: a depth-stencil view of a 3D texture under a window that differs
from the default one in its format. -/
theorem throws_iff_unsupported_witness :
    IsDefault ⟨1, TextureViewWindow.All, TextureViewWindow.All, .Undefined, 0⟩ = false
      ∧ ThrowsExactlyOutside
          (DepthStencilView.ctor sampleHeaders sampleFactory
            (some (sampleResource .TEXTURE3D 1 1))
            ⟨1, TextureViewWindow.All, TextureViewWindow.All, .Undefined, 0⟩)
          texture1DOr2D .TEXTURE3D :=
  ⟨by decide,
    (throws_iff_unsupported sampleHeaders sampleFactory (sampleResource .TEXTURE3D 1 1)
      ⟨1, TextureViewWindow.All, TextureViewWindow.All, .Undefined, 0⟩ (by decide)).2.1⟩

/-! ### The clamped array size -/

/-- C10: for a texture with n layers and a window array-layer range {min m, count c}
with m < n, 1 <= c and n, c below 2^31 (hence m too), the value a = min(n - m, c)
satisfies 1 <= a <= c and m + a <= n, it is the `unsigned` value of the local
`arraySize`, and it is the ArraySize that each of the four constructors writes to
the descriptor of a 1D or 2D texture (for the shader-resource view, of a 2D
texture that is not cube-flagged: the cube case writes no ArraySize). -/
theorem array_size_is_clamped_count (H : Headers) (factory : ObjectFactory) (r : Resource)
    (window : TextureViewWindow)
    (hm : window._arrayLayerRange._min < r.ArraySize)
    (hc : 1 ≤ window._arrayLayerRange._count)
    (hn : r.ArraySize < 2147483648)
    (hc2 : window._arrayLayerRange._count < 2147483648) :
    1 ≤ min (r.ArraySize - window._arrayLayerRange._min) window._arrayLayerRange._count
      ∧ min (r.ArraySize - window._arrayLayerRange._min) window._arrayLayerRange._count
          ≤ window._arrayLayerRange._count
      ∧ window._arrayLayerRange._min
          + min (r.ArraySize - window._arrayLayerRange._min) window._arrayLayerRange._count
          ≤ r.ArraySize
      ∧ toUInt (arraySize r.ArraySize window)
          = min (r.ArraySize - window._arrayLayerRange._min) window._arrayLayerRange._count
      ∧ (r.resType = .TEXTURE1D ∨ r.resType = .TEXTURE2D →
        ∃ d, (RenderTargetView.ctor H factory (some r) window).rtvDesc = some d
          ∧ d.u.ArraySize? = some
              (min (r.ArraySize - window._arrayLayerRange._min) window._arrayLayerRange._count))
      ∧ (r.resType = .TEXTURE1D ∨ r.resType = .TEXTURE2D →
        ∃ d, (DepthStencilView.ctor H factory (some r) window).dsvDesc = some d
          ∧ d.u.ArraySize? = some
              (min (r.ArraySize - window._arrayLayerRange._min) window._arrayLayerRange._count))
      ∧ (r.resType = .TEXTURE1D ∨ r.resType = .TEXTURE2D →
        ∃ d, (UnorderedAccessView.ctor H factory (some r) window).uavDesc = some d
          ∧ d.u.ArraySize? = some
              (min (r.ArraySize - window._arrayLayerRange._min) window._arrayLayerRange._count))
      ∧ (r.resType = .TEXTURE1D
          ∨ (r.resType = .TEXTURE2D ∧ r.MiscFlags &&& D3D11_RESOURCE_MISC_TEXTURECUBE = 0) →
        ∃ d, (ShaderResourceView.ctor H factory (some r) window).srvDesc = some d
          ∧ d.u.ArraySize? = some
              (min (r.ArraySize - window._arrayLayerRange._min)
                window._arrayLayerRange._count)) := by
  have hw : IsDefault window = false := not_default_of_count_lt window hc2
  have ha := arraySize_exact r.ArraySize window hn hm hc2
  have hu : toUInt ((min (r.ArraySize - window._arrayLayerRange._min)
      window._arrayLayerRange._count : Nat) : Int)
      = min (r.ArraySize - window._arrayLayerRange._min) window._arrayLayerRange._count :=
    toUInt_natCast _ (by omega)
  rw [rtvDesc_ctor H factory r window hw, dsvDesc_ctor H factory r window hw,
    uavDesc_ctor H factory r window hw, srvDesc_ctor H factory r window hw]
  unfold RenderTargetView.viewDesc DepthStencilView.viewDesc UnorderedAccessView.viewDesc
    ShaderResourceView.viewDesc
  refine ⟨by omega, by omega, by omega, by rw [ha, hu], ?_, ?_, ?_, ?_⟩
  · rintro (h | h) <;> simp only [h, ha, hu] <;> (try split_ifs) <;>
      simp [RTVUnion.ArraySize?]
  · rintro (h | h) <;> simp only [h, ha, hu] <;> (try split_ifs) <;>
      simp [DSVUnion.ArraySize?]
  · rintro (h | h) <;> simp only [h, ha, hu] <;> (try split_ifs) <;>
      simp [UAVUnion.ArraySize?]
  · rintro (h | ⟨h, hcube⟩)
    · simp only [h, ha, hu]
      simp [SRVUnion.ArraySize?]
    · simp only [h, ha, hu, hasFlag, hcube]
      split_ifs <;> simp_all [SRVUnion.ArraySize?]

/-- Witness of C10: a 2D texture with 6 layers and the range {min 4, count 5}: the
shader-resource descriptor gets ArraySize 2. -/
theorem array_size_is_clamped_count_witness :
    ∃ d, (ShaderResourceView.ctor sampleHeaders sampleFactory
          (some (sampleResource .TEXTURE2D 6 1))
          ⟨0, TextureViewWindow.All, ⟨4, 5⟩, .Undefined, 0⟩).srvDesc = some d
      ∧ d.u.ArraySize? = some (min (6 - 4) 5) :=
  (array_size_is_clamped_count sampleHeaders sampleFactory (sampleResource .TEXTURE2D 6 1)
    ⟨0, TextureViewWindow.All, ⟨4, 5⟩, .Undefined, 0⟩ (by decide) (by decide) (by decide)
    (by decide)).2.2.2.2.2.2.2 (Or.inr ⟨rfl, by decide⟩)

/-! ### The mip range -/

/-- C11: for every window that is not default, a shader-resource view of a 1D texture,
of a 2D texture that is cube-flagged or has at most one sample, or of a 3D texture
gets MostDetailedMip = mipRange.min and MipLevels = mipRange.count, whatever the
count (the unlimited sentinel included); a render-target, depth-stencil or
unordered-access view of a 1D texture, of a 2D texture with at most one sample (any
2D texture for the unordered-access view) or, where supported, of a 3D texture gets
MipSlice = mipRange.min; and for these three view types a second window that is not
default and differs only in the mip count yields the same descriptor. -/
theorem mip_range_in_descriptor (H : Headers) (factory : ObjectFactory) (r : Resource)
    (window : TextureViewWindow) (hw : IsDefault window = false) :
    (r.resType = .TEXTURE1D
          ∨ (r.resType = .TEXTURE2D
              ∧ (r.MiscFlags &&& D3D11_RESOURCE_MISC_TEXTURECUBE ≠ 0 ∨ r.SampleCount ≤ 1))
          ∨ r.resType = .TEXTURE3D →
        ∃ d, (ShaderResourceView.ctor H factory (some r) window).srvDesc = some d
          ∧ d.u.MostDetailedMip? = some window._mipRange._min
          ∧ d.u.MipLevels? = some window._mipRange._count)
      ∧ (r.resType = .TEXTURE1D ∨ (r.resType = .TEXTURE2D ∧ r.SampleCount ≤ 1)
          ∨ r.resType = .TEXTURE3D →
        ∃ d, (RenderTargetView.ctor H factory (some r) window).rtvDesc = some d
          ∧ d.u.MipSlice? = some window._mipRange._min)
      ∧ (r.resType = .TEXTURE1D ∨ (r.resType = .TEXTURE2D ∧ r.SampleCount ≤ 1) →
        ∃ d, (DepthStencilView.ctor H factory (some r) window).dsvDesc = some d
          ∧ d.u.MipSlice? = some window._mipRange._min)
      ∧ (r.resType = .TEXTURE1D ∨ r.resType = .TEXTURE2D ∨ r.resType = .TEXTURE3D →
        ∃ d, (UnorderedAccessView.ctor H factory (some r) window).uavDesc = some d
          ∧ d.u.MipSlice? = some window._mipRange._min)
      ∧ (∀ count : Nat,
        IsDefault { window with _mipRange := ⟨window._mipRange._min, count⟩ } = false →
        (RenderTargetView.ctor H factory (some r)
              { window with _mipRange := ⟨window._mipRange._min, count⟩ }).rtvDesc
            = (RenderTargetView.ctor H factory (some r) window).rtvDesc
          ∧ (DepthStencilView.ctor H factory (some r)
              { window with _mipRange := ⟨window._mipRange._min, count⟩ }).dsvDesc
            = (DepthStencilView.ctor H factory (some r) window).dsvDesc
          ∧ (UnorderedAccessView.ctor H factory (some r)
              { window with _mipRange := ⟨window._mipRange._min, count⟩ }).uavDesc
            = (UnorderedAccessView.ctor H factory (some r) window).uavDesc) := by
  refine ⟨?_, ?_, ?_, ?_, ?_⟩
  · rw [srvDesc_ctor H factory r window hw]
    unfold ShaderResourceView.viewDesc
    rintro (h | ⟨h, hc | hs⟩ | h)
    · simp [h, SRVUnion.MostDetailedMip?, SRVUnion.MipLevels?]
    · simp [h, hasFlag, hc, SRVUnion.MostDetailedMip?, SRVUnion.MipLevels?]
    · have hms : selectMultisample H r window = false := by
        simp [selectMultisample]
        intro h1
        omega
      simp only [h, hms, Bool.false_eq_true, if_false]
      split_ifs <;> simp [SRVUnion.MostDetailedMip?, SRVUnion.MipLevels?]
    · simp [h, SRVUnion.MostDetailedMip?, SRVUnion.MipLevels?]
  · rw [rtvDesc_ctor H factory r window hw]
    unfold RenderTargetView.viewDesc
    rintro (h | ⟨h, hs⟩ | h)
    · simp [h, RTVUnion.MipSlice?]
    · have hms : selectMultisample H r window = false := by
        simp [selectMultisample]
        intro h1
        omega
      simp [h, hms, RTVUnion.MipSlice?]
    · simp [h, RTVUnion.MipSlice?]
  · rw [dsvDesc_ctor H factory r window hw]
    unfold DepthStencilView.viewDesc
    rintro (h | ⟨h, hs⟩)
    · simp [h, DSVUnion.MipSlice?]
    · have hms : selectMultisample H r window = false := by
        simp [selectMultisample]
        intro h1
        omega
      simp [h, hms, DSVUnion.MipSlice?]
  · rw [uavDesc_ctor H factory r window hw]
    unfold UnorderedAccessView.viewDesc
    rintro (h | h | h) <;> simp [h, UAVUnion.MipSlice?]
  · intro count hw2
    rw [rtvDesc_ctor H factory r _ hw2, dsvDesc_ctor H factory r _ hw2,
      uavDesc_ctor H factory r _ hw2, rtvDesc_ctor H factory r window hw,
      dsvDesc_ctor H factory r window hw, uavDesc_ctor H factory r window hw]
    exact ⟨rfl, rfl, rfl⟩

/-- Witness of C11: a 2D texture with one sample and a window with the mip range
{min 2, count Unlimited}: the shader-resource descriptor gets MostDetailedMip 2 and
MipLevels 4294967295. -/
theorem mip_range_in_descriptor_witness :
    IsDefault ⟨0, ⟨2, TextureViewWindow.Unlimited⟩, TextureViewWindow.All, .Undefined, 0⟩ = false
      ∧ ∃ d, (ShaderResourceView.ctor sampleHeaders sampleFactory
            (some (sampleResource .TEXTURE2D 1 1))
            ⟨0, ⟨2, TextureViewWindow.Unlimited⟩, TextureViewWindow.All, .Undefined, 0⟩).srvDesc
            = some d
          ∧ d.u.MostDetailedMip? = some 2
          ∧ d.u.MipLevels? = some TextureViewWindow.Unlimited :=
  ⟨by decide,
    (mip_range_in_descriptor sampleHeaders sampleFactory (sampleResource .TEXTURE2D 1 1)
      ⟨0, ⟨2, TextureViewWindow.Unlimited⟩, TextureViewWindow.All, .Undefined, 0⟩
      (by decide)).1 (Or.inr (Or.inl ⟨rfl, Or.inr (by decide)⟩))⟩

/-! ### The factory that creates the view -/

/-- C14 fails on the code for the unordered-access view. The constructor is given the
factory with tag 1, a 1D texture owned by the factory with tag 2, and a window that
differs from the default one in its format: the creation call is made on the factory
with tag 2, found by `GetObjectFactory`, and the stored pointer 5007 is the one that
factory returned; the render-target constructor, given the same arguments, makes its
creation call on the factory with tag 1 and stores its pointer 2007. -/
theorem unordered_access_view_creates_through_owner_factory :
    sampleFactory.tag = 1
      ∧ (sampleHeaders.GetObjectFactory (sampleResource .TEXTURE1D 1 1)).tag = 2
      ∧ UnorderedAccessView.ctor sampleHeaders sampleFactory
          (some (sampleResource .TEXTURE1D 1 1))
          ⟨1, TextureViewWindow.All, TextureViewWindow.All, .Undefined, 0⟩
        = ⟨[.GetType 7, .TextureDesc1D 7, .GetObjectFactory 7,
              .CreateUnorderedAccessView 2 7
                (some ⟨1, .TEXTURE1D, .Texture1DArray 0 0 4294967295⟩)],
            .constructed (some 5007)⟩
      ∧ RenderTargetView.ctor sampleHeaders sampleFactory
          (some (sampleResource .TEXTURE1D 1 1))
          ⟨1, TextureViewWindow.All, TextureViewWindow.All, .Undefined, 0⟩
        = ⟨[.GetType 7, .TextureDesc1D 7,
              .CreateRenderTargetView 1 7
                (some ⟨1, .TEXTURE1D, .Texture1DArray 0 0 4294967295⟩)],
            .constructed (some 2007)⟩ := by
  decide

/-! ### Raw buffer views -/

/-- C15: `RawBuffer` hands the factory a `BUFFEREX` descriptor of format
`R32_TYPELESS` with the raw flag, FirstElement = offsetBytes div 4 and NumElements =
sizeBytes div 4. When both arguments are multiples of 4 the byte range
[4*FirstElement, 4*(FirstElement+NumElements)) is [offsetBytes, offsetBytes+sizeBytes);
in general 4*FirstElement <= offsetBytes < 4*FirstElement + 4 and
4*NumElements <= sizeBytes < 4*NumElements + 4. -/
theorem raw_buffer_descriptor (H : Headers) (r : Resource) (sizeBytes offsetBytes : Nat) :
    (ShaderResourceView.RawBuffer H r sizeBytes offsetBytes).srvDesc
        = some ⟨DXGI_FORMAT_R32_TYPELESS, .BUFFEREX,
            .BufferEx (offsetBytes / 4) (sizeBytes / 4) D3D11_BUFFEREX_SRV_FLAG_RAW⟩
      ∧ (offsetBytes % 4 = 0 → sizeBytes % 4 = 0 →
          4 * (offsetBytes / 4) = offsetBytes
            ∧ 4 * (offsetBytes / 4 + sizeBytes / 4) = offsetBytes + sizeBytes)
      ∧ 4 * (offsetBytes / 4) ≤ offsetBytes ∧ offsetBytes < 4 * (offsetBytes / 4) + 4
      ∧ 4 * (sizeBytes / 4) ≤ sizeBytes ∧ sizeBytes < 4 * (sizeBytes / 4) + 4 := by
  refine ⟨?_, ?_, ?_, ?_, ?_, ?_⟩
  · simp [ShaderResourceView.RawBuffer, Run.srvDesc, Event.srvDesc]
  · intro h1 h2
    omega
  · omega
  · omega
  · omega
  · omega

/-- Witness of C15: 64 bytes at offset 16, both multiples of 4: the elements
16 div 4 .. 16 div 4 + 64 div 4 cover the bytes 16 .. 16 + 64. -/
theorem raw_buffer_descriptor_witness :
    16 % 4 = 0 ∧ 64 % 4 = 0
      ∧ 4 * (16 / 4) = 16 ∧ 4 * (16 / 4 + 64 / 4) = 16 + 64 :=
  ⟨by decide, by decide,
    (raw_buffer_descriptor sampleHeaders (sampleResource .BUFFER 1 1) 64 16).2.1
      (by decide) (by decide)⟩

end RenderCore.Metal_DX11

namespace IBLRef

/-! ## Theorems on the reference lighting functions -/

theorem foldl_add_fst (g : Nat → float3 × List ShaderEvent) (init : float3 × List ShaderEvent)
    (n : Nat) :
    ((List.range n).foldl
        (fun (acc : float3 × List ShaderEvent) (s : Nat) => (acc.1.add (g s).1, acc.2 ++ (g s).2))
        init).1
      = init.1.add (float3.sumRange n (fun s => (g s).1)) := by
  induction n with
  | zero => ext <;> simp [float3.add, float3.sumRange]
  | succ n ih =>
    rw [List.range_succ, List.foldl_append, List.foldl_cons, List.foldl_nil]
    simp only [ih]
    ext <;> simp [float3.add, float3.sumRange, Finset.sum_range_succ, add_assoc]

theorem accumulate_fst (acc : float3 × List ShaderEvent) (t : Option float3 × List ShaderEvent) :
    (accumulate acc t).1
      = acc.1.add (match t.1 with
          | none => float3.splat 0
          | some v => v) := by
  unfold accumulate
  cases t.1 with
  | none => ext <;> simp [float3.add, float3.splat]
  | some v => rfl

theorem foldl_accumulate_fst (g : Nat → Option float3 × List ShaderEvent)
    (init : float3 × List ShaderEvent) (n : Nat) :
    ((List.range n).foldl
        (fun (acc : float3 × List ShaderEvent) (s : Nat) => accumulate acc (g s)) init).1
      = init.1.add (float3.sumRange n (fun s =>
          match (g s).1 with
          | none => float3.splat 0
          | some v => v)) := by
  induction n with
  | zero => ext <;> simp [float3.add, float3.sumRange]
  | succ n ih =>
    rw [List.range_succ, List.foldl_append, List.foldl_cons, List.foldl_nil, accumulate_fst, ih]
    ext <;> simp [float3.add, float3.sumRange, Finset.sum_range_succ, add_assoc]

/-- C12: when the roughness is exactly 0, both reference functions return the zero
colour and the list of calls is empty: no texture lookup, no BRDF evaluation and no
division took place. -/
theorem zero_roughness_returns_zero {Rest TextureCube : Type} (lib : ShaderLib Rest TextureCube)
    (normal viewDirection : float3) (specParam : SpecularParameters Rest) (tex : TextureCube)
    (h : specParam.roughness = 0) :
    SampleSpecularIBL_Ref lib normal viewDirection specParam tex = (⟨0, 0, 0⟩, [])
      ∧ SampleTransmittedSpecularIBL_Ref lib normal viewDirection specParam tex
        = (⟨0, 0, 0⟩, []) := by
  simp [SampleSpecularIBL_Ref, SampleTransmittedSpecularIBL_Ref, h, float3.splat]

/-- Witness of C12: the sample library, the normal (0, 0, 1), the view direction
(0, 1, 1) and roughness 0. -/
theorem zero_roughness_returns_zero_witness :
    (⟨0, ()⟩ : SpecularParameters Unit).roughness = 0
      ∧ SampleSpecularIBL_Ref sampleLib ⟨0, 0, 1⟩ ⟨0, 1, 1⟩ ⟨0, ()⟩ () = (⟨0, 0, 0⟩, [])
      ∧ SampleTransmittedSpecularIBL_Ref sampleLib ⟨0, 0, 1⟩ ⟨0, 1, 1⟩ ⟨0, ()⟩ ()
        = (⟨0, 0, 0⟩, []) :=
  ⟨rfl, zero_roughness_returns_zero sampleLib ⟨0, 0, 1⟩ ⟨0, 1, 1⟩ ⟨0, ()⟩ () rfl⟩

theorem loops_sum_their_passes {Rest TextureCube : Type}
    (lib : ShaderLib Rest TextureCube) (normal viewDirection : float3)
    (specParam : SpecularParameters Rest) (tex : TextureCube)
    (h : specParam.roughness ≠ 0) :
    (SampleSpecularIBL_Ref lib normal viewDirection specParam tex).1
        = (float3.sumRange 512 (fun s =>
            (specularSample lib normal viewDirection specParam tex
              (lib.RoughnessToDAlpha specParam.roughness) 512 s).1)).scale (1 / 512)
      ∧ (SampleTransmittedSpecularIBL_Ref lib normal viewDirection specParam tex).1
        = (float3.sumRange 128 (fun s =>
            transmittedTerm lib normal viewDirection specParam tex
              (lib.RoughnessToDAlpha specParam.roughness) 128 s)).scale (1 / 128)
      ∧ ((∀ s, s < 128 →
            (transmittedSample lib normal viewDirection specParam tex
              (lib.RoughnessToDAlpha specParam.roughness) 128 s).1 = none) →
          (SampleTransmittedSpecularIBL_Ref lib normal viewDirection specParam tex).1
            = ⟨0, 0, 0⟩) := by
  have h1 := foldl_add_fst
    (fun s => specularSample lib normal viewDirection specParam tex
      (lib.RoughnessToDAlpha specParam.roughness) 512 s)
    (float3.splat 0, [ShaderEvent.RoughnessToDAlpha]) 512
  have h2 := foldl_accumulate_fst
    (fun s => transmittedSample lib normal viewDirection specParam tex
      (lib.RoughnessToDAlpha specParam.roughness) 128 s)
    (float3.splat 0, [ShaderEvent.RoughnessToDAlpha]) 128
  have e1 : (SampleSpecularIBL_Ref lib normal viewDirection specParam tex).1
      = (float3.sumRange 512 (fun s =>
          (specularSample lib normal viewDirection specParam tex
            (lib.RoughnessToDAlpha specParam.roughness) 512 s).1)).scale (1 / 512) := by
    simp only [SampleSpecularIBL_Ref, h, if_false]
    rw [h1]
    ext <;> simp [float3.add, float3.splat, float3.divScalar, float3.scale, div_eq_mul_inv]
  have e2 : (SampleTransmittedSpecularIBL_Ref lib normal viewDirection specParam tex).1
      = (float3.sumRange 128 (fun s =>
          transmittedTerm lib normal viewDirection specParam tex
            (lib.RoughnessToDAlpha specParam.roughness) 128 s)).scale (1 / 128) := by
    simp only [SampleTransmittedSpecularIBL_Ref, h, if_false]
    rw [h2]
    ext <;> simp [float3.add, float3.splat, float3.divScalar, float3.scale, div_eq_mul_inv,
      transmittedTerm]
  refine ⟨e1, e2, fun hall => ?_⟩
  rw [e2]
  have hz : ∀ s ∈ Finset.range 128,
      transmittedTerm lib normal viewDirection specParam tex
        (lib.RoughnessToDAlpha specParam.roughness) 128 s = float3.splat 0 := by
    intro s hs
    unfold transmittedTerm
    rw [hall s (Finset.mem_range.mp hs)]
  ext <;> simp only [float3.scale, float3.sumRange] <;>
    rw [Finset.sum_eq_zero (fun s hs => by rw [hz s hs]; rfl)] <;> simp

/-- C13: when the roughness is not 0 and the denominator `D * NdotH` of the weight is
not 0 for any sample (a float division by zero gives inf or NaN, outside exact
arithmetic), `SampleSpecularIBL_Ref` returns, in each component, 1/512 times the
sum over s = 0 .. 511 of `lightColor * brdf * pdfWeight`, with the half vector H,
the light direction L = 2 (V.H) H - V, the texture lookup at L, the BRDF at L and H
and the weight 4 VdotH / (D * NdotH) of the source; `SampleTransmittedSpecularIBL_Ref`
returns 1/128 times the sum over s = 0 .. 127 of `lightColor * brdf * pdfWeight`
taken at the incident direction that `CalculateTransmissionIncident` reports, a
sample without incident direction adding zero while the divisor stays 128; if no
sample has an incident direction the result is zero. Under the hypothesis on the
denominators each weight is the true quotient: pdfWeight * (D * NdotH) = 4 VdotH. -/
theorem reference_functions_return_mean {Rest TextureCube : Type}
    (lib : ShaderLib Rest TextureCube) (normal viewDirection : float3)
    (specParam : SpecularParameters Rest) (tex : TextureCube)
    (h : specParam.roughness ≠ 0)
    (hden : ∀ s, s < 512 →
      lib.TrowReitzD
          (saturate (dot normal (lib.BuildSampleHalfVectorGGX s 512 normal
            (lib.RoughnessToDAlpha specParam.roughness))))
          (lib.RoughnessToDAlpha specParam.roughness)
        * saturate (dot normal (lib.BuildSampleHalfVectorGGX s 512 normal
            (lib.RoughnessToDAlpha specParam.roughness))) ≠ 0) :
    let alphad := lib.RoughnessToDAlpha specParam.roughness
    let H := fun (s : Nat) => lib.BuildSampleHalfVectorGGX s 512 normal alphad
    let L := fun (s : Nat) => ((H s).scale (2 * dot viewDirection (H s))).sub viewDirection
    let lightColor := fun (s : Nat) => lib.SampleLevel tex (lib.AdjSkyCubeMapCoords (L s))
    let brdf := fun (s : Nat) => lib.CalculateSpecular normal viewDirection (L s) (H s) specParam
    let pdfWeight := fun (s : Nat) =>
      (4 * saturate (dot viewDirection (H s)))
        / (lib.TrowReitzD (saturate (dot normal (H s))) alphad * saturate (dot normal (H s)))
    let Ht := fun (s : Nat) => lib.BuildSampleHalfVectorGGX s 128 normal.neg alphad
    let incident := fun (s : Nat) =>
      lib.CalculateTransmissionIncident viewDirection (Ht s) 1
        lib.SpecularTransmissionIndexOfRefraction
    let term := fun (s : Nat) (component : float3 → ℚ) =>
      match incident s with
      | none => (0 : ℚ)
      | some i =>
        component (lib.SampleLevel tex (lib.AdjSkyCubeMapCoords i))
          * component (lib.CalculateSpecular normal viewDirection i (Ht s) specParam)
          * lib.SamplingPDFWeight (Ht s) normal.neg viewDirection alphad
    (SampleSpecularIBL_Ref lib normal viewDirection specParam tex).1
        = ⟨1 / 512 * ∑ s in Finset.range 512, (lightColor s).x * (brdf s).x * pdfWeight s,
            1 / 512 * ∑ s in Finset.range 512, (lightColor s).y * (brdf s).y * pdfWeight s,
            1 / 512 * ∑ s in Finset.range 512, (lightColor s).z * (brdf s).z * pdfWeight s⟩
      ∧ (SampleTransmittedSpecularIBL_Ref lib normal viewDirection specParam tex).1
        = ⟨1 / 128 * ∑ s in Finset.range 128, term s float3.x,
            1 / 128 * ∑ s in Finset.range 128, term s float3.y,
            1 / 128 * ∑ s in Finset.range 128, term s float3.z⟩
      ∧ ((∀ s, s < 128 → incident s = none) →
          (SampleTransmittedSpecularIBL_Ref lib normal viewDirection specParam tex).1
            = ⟨0, 0, 0⟩)
      ∧ (∀ s, s < 512 →
          pdfWeight s
              * (lib.TrowReitzD (saturate (dot normal (H s))) alphad
                  * saturate (dot normal (H s)))
            = 4 * saturate (dot viewDirection (H s))) := by
  intro alphad H L lightColor brdf pdfWeight Ht incident term
  obtain ⟨e1, e2, e3⟩ := loops_sum_their_passes lib normal viewDirection specParam tex h
  refine ⟨?_, ?_, ?_, fun s hs => div_mul_cancel₀ _ (hden s hs)⟩
  · rw [e1]
    ext <;> simp only [float3.scale, float3.sumRange] <;> rw [mul_comm] <;> rfl
  · rw [e2]
    have ht : ∀ (s : Nat) (component : float3 → ℚ),
        component (float3.splat 0) = 0 →
        (∀ a b : float3, ∀ k : ℚ, component ((a.mul b).scale k) = component a * component b * k) →
        component (transmittedTerm lib normal viewDirection specParam tex alphad 128 s)
          = term s component := by
      intro s component h0 hmul
      simp only [transmittedTerm, transmittedSample, term, incident, Ht]
      cases lib.CalculateTransmissionIncident viewDirection
        (lib.BuildSampleHalfVectorGGX s 128 normal.neg alphad) 1
        lib.SpecularTransmissionIndexOfRefraction with
      | none => exact h0
      | some i => exact hmul _ _ _
    ext <;> simp only [float3.scale, float3.sumRange] <;> rw [mul_comm] <;> congr 1 <;>
      apply Finset.sum_congr rfl <;> intro s _ <;> apply ht <;>
      first | rfl | (intro a b k; rfl)
  · intro hall
    apply e3
    intro s hs
    have hi := hall s hs
    simp only [incident, Ht] at hi
    simp only [transmittedSample, hi]

/-- Witness of C13: the sample library with roughness 1/2, the normal (0, 0, 1) and
the view direction (0, 1, 1): every denominator is 1, every sample adds
1 * 1/2 * 4, and the specular result is (2, 2, 2). -/
theorem reference_functions_return_mean_witness :
    (SampleSpecularIBL_Ref sampleLib ⟨0, 0, 1⟩ ⟨0, 1, 1⟩ ⟨1 / 2, ()⟩ ()).1 = ⟨2, 2, 2⟩ := by
  have hr : (⟨1 / 2, ()⟩ : SpecularParameters Unit).roughness ≠ 0 := by norm_num
  have hw := (reference_functions_return_mean sampleLib ⟨0, 0, 1⟩ ⟨0, 1, 1⟩ ⟨1 / 2, ()⟩ () hr
    (by intro s _; norm_num [sampleLib, saturate, dot])).1
  rw [hw]
  norm_num [sampleLib, saturate, dot]

end IBLRef
